/-
Verification development for the openclaw repository.

Shallow embedding of the core subsystems that the checked properties
concern: the per-provider budget tracker (openclaw/llm/budget.py), the
LLM router with its circuit breaker (openclaw/llm/router.py), the fault
detector (openclaw/diagnosis/faults.py), the DIAGNOSE skill Layer-0 path
(openclaw/skills/builtin/diagnose.py), the dispatch core
(openclaw/app.py), the Telegram long-message chunker
(openclaw/gateway/telegram.py), and the KB-enrichment synthesize stage
(openclaw/wiring/kb_enrichment.py).

Modelling conventions:
  * Python dicts used as keyed stores become association lists
    (`List (String × α)`) with in-place update, which preserves
    insertion order exactly as Python dicts do.
  * `time.monotonic()` instants are rationals (ℚ); calendar dates are
    day numbers (ℕ) ordered as dates are.
  * Async provider / connector calls become oracle functions passed as
    parameters; an exception from a call is `Option.none`.
  * Mutation is explicit state passing; every operation returns the new
    state alongside its result, mirroring the order of effects in the
    Python source.
-/

import Mathlib

/-! ## Association-list helpers (Python dict operations) -/

/-- `d.get(k)` on a Python dict modelled as an ordered association list. -/
def alistFind {κ α : Type} [DecidableEq κ] (l : List (κ × α)) (k : κ) : Option α :=
  match l with
  | [] => none
  | (k2, v) :: rest => if k2 = k then some v else alistFind rest k

/-- `d[k] = v` on a Python dict: replace in place if the key exists
(keeping its position, as Python dicts do), else append. -/
def alistSet {κ α : Type} [DecidableEq κ] (l : List (κ × α)) (k : κ) (v : α) : List (κ × α) :=
  match l with
  | [] => [(k, v)]
  | (k2, v2) :: rest => if k2 = k then (k, v) :: rest else (k2, v2) :: alistSet rest k v

theorem alistFind_alistSet_self {κ α : Type} [DecidableEq κ] (l : List (κ × α)) (k : κ) (v : α) :
    alistFind (alistSet l k v) k = some v := by
  induction l with
  | nil => simp [alistFind, alistSet]
  | cons hd tl ih =>
    obtain ⟨k2, v2⟩ := hd
    by_cases h : k2 = k
    · simp [alistFind, alistSet, h]
    · simp [alistFind, alistSet, h, ih]

theorem alistFind_alistSet_ne {κ α : Type} [DecidableEq κ] (l : List (κ × α)) (k k2 : κ) (v : α)
    (h : k ≠ k2) : alistFind (alistSet l k v) k2 = alistFind l k2 := by
  induction l with
  | nil => simp [alistFind, alistSet, h]
  | cons hd tl ih =>
    obtain ⟨k3, v3⟩ := hd
    by_cases h3 : k3 = k
    · subst h3
      simp [alistFind, alistSet, h]
    · simp only [alistSet, if_neg h3]
      by_cases h4 : k3 = k2
      · simp [alistFind, h4]
      · simp [alistFind, h4, ih]

/-! ## Budget tracking — openclaw/llm/budget.py -/

/-- `ProviderBudget` dataclass (budget.py lines 12-18).
`last_reset` is the local calendar date as a day number. -/
structure ProviderBudget where
  daily_request_limit : Nat := 0
  daily_token_limit : Nat := 0
  requests_today : Nat := 0
  tokens_today : Nat := 0
  last_reset : Nat
deriving DecidableEq, Repr

/-- `ProviderBudget._maybe_reset` (budget.py lines 20-25): lazily zero the
counters when the calendar date has advanced past `last_reset`. -/
def maybeReset (b : ProviderBudget) (today : Nat) : ProviderBudget :=
  if today > b.last_reset then
    { b with requests_today := 0, tokens_today := 0, last_reset := today }
  else b

/-- The pure limit check performed by `is_within_budget` after the lazy
reset (budget.py lines 29-33).  A limit of 0 means unlimited; Python
tests the limit for truthiness before comparing. -/
def withinLimits (b : ProviderBudget) : Bool :=
  if b.daily_request_limit ≠ 0 ∧ b.requests_today ≥ b.daily_request_limit then false
  else if b.daily_token_limit ≠ 0 ∧ b.tokens_today ≥ b.daily_token_limit then false
  else true

/-- `ProviderBudget.is_within_budget` (budget.py lines 27-33): runs the
lazy reset (a mutation) and then checks the limits.  Returns the result
together with the mutated budget. -/
def budgetIsWithin (b : ProviderBudget) (today : Nat) : Bool × ProviderBudget :=
  let b2 := maybeReset b today
  (withinLimits b2, b2)

/-- `ProviderBudget.record` (budget.py lines 35-42): lazy reset, then
increment the request counter and add the token count. -/
def budgetRecord (b : ProviderBudget) (tokens : Nat) (today : Nat) : ProviderBudget :=
  let b2 := maybeReset b today
  { b2 with requests_today := b2.requests_today + 1, tokens_today := b2.tokens_today + tokens }

/-- `BudgetTracker._budgets`: dict from provider name to its budget. -/
abbrev BudgetMap : Type := List (String × ProviderBudget)

/-- `BudgetTracker.configure` (budget.py lines 51-55): installs a fresh
budget for the provider (counters zeroed, `last_reset` = today). -/
def trackerConfigure (m : BudgetMap) (provider : String)
    (daily_request_limit daily_token_limit : Nat) (today : Nat) : BudgetMap :=
  alistSet m provider
    { daily_request_limit := daily_request_limit,
      daily_token_limit := daily_token_limit,
      requests_today := 0, tokens_today := 0, last_reset := today }

/-- `BudgetTracker.is_within_budget` (budget.py lines 57-61): an
unconfigured provider is always within budget; otherwise delegate to the
provider budget (whose lazy reset mutates the stored entry). -/
def trackerIsWithin (m : BudgetMap) (provider : String) (today : Nat) : Bool × BudgetMap :=
  match alistFind m provider with
  | none => (true, m)
  | some b =>
      let r := budgetIsWithin b today
      (r.1, alistSet m provider r.2)

/-- `BudgetTracker.record` (budget.py lines 63-66): a no-op for an
unconfigured provider. -/
def trackerRecord (m : BudgetMap) (provider : String) (tokens : Nat) (today : Nat) : BudgetMap :=
  match alistFind m provider with
  | none => m
  | some b => alistSet m provider (budgetRecord b tokens today)

/-- One row of `BudgetTracker.summary()` (budget.py lines 68-77). -/
structure SummaryEntry where
  requests_today : Nat
  tokens_today : Nat
  daily_request_limit : Nat
  within_budget : Bool
deriving DecidableEq, Repr

/-- `BudgetTracker.summary` (budget.py lines 68-77).  The dict literal
evaluates its values in order: `requests_today` and `tokens_today` are
read from the entry BEFORE `b.is_within_budget()` runs (and performs the
lazy reset); `within_budget` reflects the post-reset state. -/
def trackerSummary (m : BudgetMap) (today : Nat) : List (String × SummaryEntry) :=
  m.map (fun nb =>
    (nb.1,
      { requests_today := nb.2.requests_today,
        tokens_today := nb.2.tokens_today,
        daily_request_limit := nb.2.daily_request_limit,
        within_budget := (budgetIsWithin nb.2 today).1 }))

/-! ## LLM router — openclaw/llm/router.py -/

/-- The closed intent set (openclaw/types.py). -/
inductive Intent where
  | DIAGNOSE | STATUS | PHOTO | WORK_ORDER | CHAT | ADMIN | HELP
  | SEARCH | SHELL | DIAGRAM | GIST | PROJECT | UNKNOWN
  | WIRING_RECONSTRUCT | KB_ENRICH
deriving DecidableEq, Repr

/-- `Route` dataclass (router.py lines 16-19). -/
structure Route where
  primary : String
  fallbacks : List String := []
deriving DecidableEq, Repr

/-- `ProviderHealth` dataclass (router.py lines 22-28). -/
structure ProviderHealth where
  consecutive_failures : Nat := 0
  last_failure : ℚ := 0
  circuit_open_until : ℚ := 0
deriving DecidableEq, Repr

/-- router.py lines 31-33. -/
def CIRCUIT_BREAKER_THRESHOLD : Nat := 3
def CIRCUIT_BREAKER_COOLDOWN : ℚ := 300

/-- The provider capabilities the router consults (openclaw/llm/base.py):
`is_available()` and `supports_vision()`.  The base class defines no
JSON-mode capability. -/
structure ProviderInfo where
  is_available : Bool
  supports_vision : Bool := false
deriving DecidableEq, Repr

/-- `LLMResponse` fields the router logic reads (base.py lines 9-16);
latency stamping is timing-only and not modelled. -/
structure LLMResponseData where
  text : String
  model : String
  provider : String
  tokens_used : Nat
deriving DecidableEq, Repr

/-- Outcome oracle for `LLMRouter._call`: given the provider name and
the `json_mode` flag it was invoked with, either the provider's response
or `none` for an exception. -/
abbrev CallOracle : Type := String → Bool → Option LLMResponseData

/-- Where in `route` a provider call happened (ghost instrumentation to
state properties about attempts): the `prefer` fast path or the
candidate loop. -/
inductive CallSite where
  | prefer | loop
deriving DecidableEq, Repr

/-- Ghost log entry: one actual `_call` invocation. -/
structure CallEv where
  name : String
  ok : Bool
  site : CallSite
deriving DecidableEq, Repr

abbrev HealthMap : Type := List (String × ProviderHealth)

/-- `LLMRouter._record_success` (router.py lines 136-140): reset the
failure counter if a health entry exists; `circuit_open_until` is left
untouched. -/
def recordSuccess (hm : HealthMap) (provider_name : String) : HealthMap :=
  match alistFind hm provider_name with
  | none => hm
  | some h => alistSet hm provider_name { h with consecutive_failures := 0 }

/-- `LLMRouter._record_failure` (router.py lines 142-160): create the
health entry if missing, bump the counter, stamp the failure time, and
open the circuit for the cooldown once the threshold is reached. -/
def recordFailure (hm : HealthMap) (provider_name : String) (now : ℚ) : HealthMap :=
  let h := (alistFind hm provider_name).getD {}
  let h1 := { h with consecutive_failures := h.consecutive_failures + 1, last_failure := now }
  let h2 :=
    if h1.consecutive_failures ≥ CIRCUIT_BREAKER_THRESHOLD then
      { h1 with circuit_open_until := now + CIRCUIT_BREAKER_COOLDOWN }
    else h1
  alistSet hm provider_name h2

/-- The winner of a `route` call: which provider returned the response,
and from which site.  (`budget.record` uses the candidate name, so the
name is tracked explicitly.) -/
structure RouteWinner where
  name : String
  resp : LLMResponseData
  site : CallSite
deriving DecidableEq, Repr

/-- Everything observable about one `route` invocation: the returned
response (`none` models the final `RuntimeError`), the mutated budget
and health state, the `attempted` list the loop builds, and the ghost
call log. -/
structure RouteOutcome where
  result : Option RouteWinner
  budget : BudgetMap
  health : HealthMap
  attempted : List String
  log : List CallEv
deriving DecidableEq, Repr

/-- The candidate loop of `LLMRouter.route` (router.py lines 100-129),
one candidate at a time:
skip if unconfigured or unavailable; skip (after the lazy-reset
mutation) if over budget; skip if images are present and the provider
lacks vision; skip if the circuit is open; otherwise append to
`attempted` and call.  Success records tokens against the budget and
resets health; failure records the failure and continues. -/
def routeLoop (providers : List (String × ProviderInfo)) (oracle : CallOracle)
    (json_mode images : Bool) (now : ℚ) (today : Nat) :
    List String → BudgetMap → HealthMap → List String → List CallEv → RouteOutcome
  | [], bu, hm, att, lg => ⟨none, bu, hm, att, lg⟩
  | provider_name :: rest, bu, hm, att, lg =>
    match alistFind providers provider_name with
    | none => routeLoop providers oracle json_mode images now today rest bu hm att lg
    | some p =>
      if ¬ p.is_available then
        routeLoop providers oracle json_mode images now today rest bu hm att lg
      else if ¬ (trackerIsWithin bu provider_name today).1 then
        routeLoop providers oracle json_mode images now today rest
          (trackerIsWithin bu provider_name today).2 hm att lg
      else if images ∧ ¬ p.supports_vision then
        routeLoop providers oracle json_mode images now today rest
          (trackerIsWithin bu provider_name today).2 hm att lg
      else if (match alistFind hm provider_name with
          | some h => decide (now < h.circuit_open_until)
          | none => false) then
        routeLoop providers oracle json_mode images now today rest
          (trackerIsWithin bu provider_name today).2 hm att lg
      else
        match oracle provider_name json_mode with
        | some resp =>
            ⟨some ⟨provider_name, resp, CallSite.loop⟩,
              trackerRecord (trackerIsWithin bu provider_name today).2 provider_name
                resp.tokens_used today,
              recordSuccess hm provider_name,
              att ++ [provider_name], lg ++ [⟨provider_name, true, CallSite.loop⟩]⟩
        | none =>
            routeLoop providers oracle json_mode images now today rest
              (trackerIsWithin bu provider_name today).2
              (recordFailure hm provider_name now) (att ++ [provider_name])
              (lg ++ [⟨provider_name, false, CallSite.loop⟩])

/-- The candidate list for an intent (router.py lines 96-97): the
route's primary then its fallbacks, with the default route
`groq/[openai]` when the intent is absent from the table. -/
def routeCandidates (routesTable : List (Intent × Route)) (intent : Intent) : List String :=
  ((alistFind routesTable intent).getD ⟨"groq", ["openai"]⟩).primary
    :: ((alistFind routesTable intent).getD ⟨"groq", ["openai"]⟩).fallbacks

/-- `LLMRouter.route` (router.py lines 67-134).  The `prefer` fast path
(lines 81-93): if the preferred provider is configured, available,
within budget (checked in that short-circuit order) and its circuit is
closed, call it; on success only health is updated (no budget record)
and the response is returned; on failure health is updated and control
falls through to the candidate loop over the intent's candidates. -/
def route (providers : List (String × ProviderInfo)) (oracle : CallOracle)
    (routesTable : List (Intent × Route)) (intent : Intent)
    (bu : BudgetMap) (hm : HealthMap) (now : ℚ) (today : Nat)
    (images : Bool) (prefer : Option String) (json_mode : Bool) : RouteOutcome :=
  match prefer with
  | none =>
    routeLoop providers oracle json_mode images now today
      (routeCandidates routesTable intent) bu hm [] []
  | some pn =>
    match alistFind providers pn with
    | none =>
      routeLoop providers oracle json_mode images now today
        (routeCandidates routesTable intent) bu hm [] []
    | some p =>
      if ¬ p.is_available then
        routeLoop providers oracle json_mode images now today
          (routeCandidates routesTable intent) bu hm [] []
      else if ¬ (trackerIsWithin bu pn today).1 then
        routeLoop providers oracle json_mode images now today
          (routeCandidates routesTable intent) (trackerIsWithin bu pn today).2 hm [] []
      else if (match alistFind hm pn with
          | none => true
          | some h => decide (now ≥ h.circuit_open_until)) then
        match oracle pn json_mode with
        | some resp =>
            ⟨some ⟨pn, resp, CallSite.prefer⟩, (trackerIsWithin bu pn today).2,
              recordSuccess hm pn, [], [⟨pn, true, CallSite.prefer⟩]⟩
        | none =>
            routeLoop providers oracle json_mode images now today
              (routeCandidates routesTable intent) (trackerIsWithin bu pn today).2
              (recordFailure hm pn now) [] [⟨pn, false, CallSite.prefer⟩]
      else
        routeLoop providers oracle json_mode images now today
          (routeCandidates routesTable intent) (trackerIsWithin bu pn today).2 hm [] []

/-! ## Helper lemmas about the budget/health maps -/

theorem maybeReset_of_last_reset_eq (b : ProviderBudget) (today : Nat)
    (h : b.last_reset = today) : maybeReset b today = b := by
  unfold maybeReset
  rw [h]
  simp

theorem alistFind_none_forall {κ α : Type} [DecidableEq κ] (l : List (κ × α)) (k : κ)
    (h : alistFind l k = none) : ∀ e ∈ l, e.1 ≠ k := by
  induction l with
  | nil => simp
  | cons hd tl ih =>
    obtain ⟨k2, v2⟩ := hd
    intro e he
    unfold alistFind at h
    by_cases hk : k2 = k
    · simp [hk] at h
    · simp only [if_neg hk] at h
      rcases List.mem_cons.mp he with he2 | he2
      · simpa [he2] using hk
      · exact ih h e he2

theorem alistFind_map {κ α β : Type} [DecidableEq κ] (l : List (κ × α)) (f : α → β) (k : κ) :
    alistFind (l.map (fun e => (e.1, f e.2))) k = (alistFind l k).map f := by
  induction l with
  | nil => simp [alistFind]
  | cons hd tl ih =>
    obtain ⟨k2, v2⟩ := hd
    by_cases hk : k2 = k
    · simp [alistFind, hk]
    · simp [alistFind, hk, ih]

/-- `trackerIsWithin` only performs the lazy reset; the entry of a
provider whose budget is already on today's date is unchanged, whichever
provider the check was for. -/
theorem trackerIsWithin_preserves (bu : BudgetMap) (name q : String) (today : Nat)
    (b0 : ProviderBudget) (hq : alistFind bu q = some b0) (hlr : b0.last_reset = today) :
    alistFind (trackerIsWithin bu name today).2 q = some b0 := by
  unfold trackerIsWithin
  cases hn : alistFind bu name with
  | none => simpa using hq
  | some b =>
    simp only [budgetIsWithin]
    by_cases hnq : name = q
    · subst hnq
      rw [hn] at hq
      cases hq
      simp [maybeReset_of_last_reset_eq _ _ hlr, alistFind_alistSet_self]
    · simpa [alistFind_alistSet_ne _ _ _ _ hnq] using hq

theorem trackerRecord_preserves_ne (bu : BudgetMap) (name q : String) (tokens today : Nat)
    (hnq : name ≠ q) : alistFind (trackerRecord bu name tokens today) q = alistFind bu q := by
  unfold trackerRecord
  cases hn : alistFind bu name with
  | none => rfl
  | some b => exact alistFind_alistSet_ne _ _ _ _ hnq

theorem trackerRecord_at_self (bu : BudgetMap) (q : String) (tokens today : Nat)
    (b0 : ProviderBudget) (hq : alistFind bu q = some b0) (hlr : b0.last_reset = today) :
    alistFind (trackerRecord bu q tokens today) q =
      some { b0 with requests_today := b0.requests_today + 1,
                     tokens_today := b0.tokens_today + tokens } := by
  unfold trackerRecord
  rw [hq]
  rw [alistFind_alistSet_self]
  unfold budgetRecord
  rw [maybeReset_of_last_reset_eq _ _ hlr]

theorem recordFailure_preserves_ne (hm : HealthMap) (name q : String) (now : ℚ)
    (hnq : name ≠ q) : alistFind (recordFailure hm name now) q = alistFind hm q := by
  unfold recordFailure
  exact alistFind_alistSet_ne _ _ _ _ hnq

theorem recordSuccess_preserves_ne (hm : HealthMap) (name q : String)
    (hnq : name ≠ q) : alistFind (recordSuccess hm name) q = alistFind hm q := by
  unfold recordSuccess
  cases hn : alistFind hm name with
  | none => rfl
  | some h => exact alistFind_alistSet_ne _ _ _ _ hnq

/-- The candidate loop only ever appends to the ghost call log. -/
theorem routeLoop_log_extends (providers : List (String × ProviderInfo)) (oracle : CallOracle)
    (json_mode images : Bool) (now : ℚ) (today : Nat) :
    ∀ (cands : List String) (bu : BudgetMap) (hm : HealthMap)
      (att : List String) (lg : List CallEv),
      ∃ lg2, (routeLoop providers oracle json_mode images now today cands bu hm att lg).log
        = lg ++ lg2 := by
  intro cands
  induction cands with
  | nil => intro bu hm att lg; exact ⟨[], by simp [routeLoop]⟩
  | cons name rest ih =>
    intro bu hm att lg
    rw [routeLoop]
    split
    · exact ih bu hm att lg
    · split
      · exact ih bu hm att lg
      · split
        · exact ih (trackerIsWithin bu name today).2 hm att lg
        · split
          · exact ih (trackerIsWithin bu name today).2 hm att lg
          · split
            · exact ih (trackerIsWithin bu name today).2 hm att lg
            · split
              · exact ⟨[⟨name, true, CallSite.loop⟩], by simp⟩
              · obtain ⟨lg2, h2⟩ := ih (trackerIsWithin bu name today).2
                  (recordFailure hm name now) (att ++ [name])
                  (lg ++ [⟨name, false, CallSite.loop⟩])
                exact ⟨⟨name, false, CallSite.loop⟩ :: lg2, by simpa using h2⟩

theorem trackerSummary_find (m : BudgetMap) (today : Nat) (p : String) :
    alistFind (trackerSummary m today) p = (alistFind m p).map
      (fun b => SummaryEntry.mk b.requests_today b.tokens_today
        b.daily_request_limit (budgetIsWithin b today).1) := by
  induction m with
  | nil => simp [trackerSummary, alistFind]
  | cons hd tl ih =>
    obtain ⟨k2, v2⟩ := hd
    by_cases hk : k2 = p
    · simp [trackerSummary, alistFind, hk]
    · simpa [trackerSummary, alistFind, hk] using ih

/-- C10: a provider name never passed to `BudgetTracker.configure` is
always within budget, `record` for it is a no-op, and it never appears
in `summary()` — so it is never skipped for budget reasons and its usage
is never counted. -/
theorem budget_unconfigured_provider (m : BudgetMap) (p : String) (today tokens : Nat)
    (h : alistFind m p = none) :
    trackerIsWithin m p today = (true, m) ∧
    trackerRecord m p tokens today = m ∧
    ∀ e ∈ trackerSummary m today, e.1 ≠ p := by
  refine ⟨?_, ?_, ?_⟩
  · unfold trackerIsWithin
    rw [h]
  · unfold trackerRecord
    rw [h]
  · intro e he
    unfold trackerSummary at he
    obtain ⟨nb, hnb, hrfl⟩ := List.mem_map.mp he
    have := alistFind_none_forall m p h nb hnb
    rw [← hrfl]
    exact this

/-- Witness for C10 at a concrete tracker holding only a `groq` budget:
the provider `openrouter` is unconfigured, reads as within budget,
records nothing, and is absent from the summary. -/
theorem budget_unconfigured_provider_witness :
    alistFind [("groq", ProviderBudget.mk 10 0 3 40 5)] "openrouter" = none ∧
    (trackerIsWithin [("groq", ProviderBudget.mk 10 0 3 40 5)] "openrouter" 5
        = (true, [("groq", ProviderBudget.mk 10 0 3 40 5)]) ∧
      trackerRecord [("groq", ProviderBudget.mk 10 0 3 40 5)] "openrouter" 9 5
        = [("groq", ProviderBudget.mk 10 0 3 40 5)] ∧
      ∀ e ∈ trackerSummary [("groq", ProviderBudget.mk 10 0 3 40 5)] 5, e.1 ≠ "openrouter") :=
  ⟨by decide, budget_unconfigured_provider _ _ 5 9 (by decide)⟩

/-- C6 counterexample: a budget with counters (2 requests, 5 tokens)
last reset on day 0, read via `summary()` on day 1.  The claim requires
the first read after rollover — including via `summary` — to observe
zero counters, but `summary` reports the stale counters (2, 5): the dict
literal reads `requests_today`/`tokens_today` before `is_within_budget`
performs the lazy reset. -/
theorem summary_rollover_counterexample :
    trackerSummary [("openrouter",
        ProviderBudget.mk 0 0 2 5 0)] 1
      = [("openrouter", SummaryEntry.mk 2 5 0 true)]
    ∧ (2 : Nat) ≠ 0 := by
  constructor
  · rfl
  · decide

/-- C6 amended: after a date rollover, the first `is_within_budget` or
`record` for the provider performs the lazy reset first (so the stored
counters become 0, and `record` counts from 0); `summary`, however,
reports the pre-reset counters in its `requests_today`/`tokens_today`
fields while computing `within_budget` on the reset counters. -/
theorem budget_rollover_amended (m : BudgetMap) (p : String) (b : ProviderBudget)
    (today tokens : Nat) (hfind : alistFind m p = some b) (hroll : b.last_reset < today) :
    (∃ b2, alistFind (trackerIsWithin m p today).2 p = some b2 ∧
      b2.requests_today = 0 ∧ b2.tokens_today = 0 ∧ b2.last_reset = today) ∧
    (∃ b3, alistFind (trackerRecord m p tokens today) p = some b3 ∧
      b3.requests_today = 1 ∧ b3.tokens_today = tokens) ∧
    (∃ e, alistFind (trackerSummary m today) p = some e ∧
      e.requests_today = b.requests_today ∧ e.tokens_today = b.tokens_today ∧
      e.within_budget = withinLimits (maybeReset b today)) := by
  have hreset : maybeReset b today =
      { b with requests_today := 0, tokens_today := 0, last_reset := today } := by
    unfold maybeReset
    rw [if_pos hroll]
  refine ⟨?_, ?_, ?_⟩
  · refine ⟨maybeReset b today, ?_, ?_, ?_, ?_⟩
    · unfold trackerIsWithin
      rw [hfind]
      exact alistFind_alistSet_self _ _ _
    · rw [hreset]
    · rw [hreset]
    · rw [hreset]
  · refine ⟨budgetRecord b tokens today, ?_, ?_, ?_⟩
    · unfold trackerRecord
      rw [hfind]
      exact alistFind_alistSet_self _ _ _
    · simp [budgetRecord, hreset]
    · simp [budgetRecord, hreset]
  · exact ⟨SummaryEntry.mk b.requests_today b.tokens_today b.daily_request_limit
      (budgetIsWithin b today).1,
      by rw [trackerSummary_find, hfind]; rfl, rfl, rfl, rfl⟩

/-- Witness for C6 amended at the concrete rolled-over budget
(2 requests / 5 tokens recorded on day 0, read on day 1). -/
theorem budget_rollover_amended_witness :
    alistFind [("openrouter", ProviderBudget.mk 0 0 2 5 0)] "openrouter"
        = some (ProviderBudget.mk 0 0 2 5 0) ∧
    (ProviderBudget.mk 0 0 2 5 0).last_reset < 1 ∧
    ((∃ b2, alistFind (trackerIsWithin [("openrouter", ProviderBudget.mk 0 0 2 5 0)]
          "openrouter" 1).2 "openrouter" = some b2 ∧
        b2.requests_today = 0 ∧ b2.tokens_today = 0 ∧ b2.last_reset = 1) ∧
      (∃ b3, alistFind (trackerRecord [("openrouter", ProviderBudget.mk 0 0 2 5 0)]
          "openrouter" 7 1) "openrouter" = some b3 ∧
        b3.requests_today = 1 ∧ b3.tokens_today = 7) ∧
      (∃ e, alistFind (trackerSummary [("openrouter", ProviderBudget.mk 0 0 2 5 0)] 1)
          "openrouter" = some e ∧
        e.requests_today = (ProviderBudget.mk 0 0 2 5 0).requests_today ∧
        e.tokens_today = (ProviderBudget.mk 0 0 2 5 0).tokens_today ∧
        e.within_budget = withinLimits (maybeReset (ProviderBudget.mk 0 0 2 5 0) 1))) :=
  ⟨by decide, by decide, budget_rollover_amended _ _ _ 1 7 (by decide) (by decide)⟩

/-! ## C1 — budget recording per route call -/

/-- 1 when the route outcome is a success returned from the candidate
loop by provider `q`, else 0 (failures, exhaustion, and the `prefer`
fast path all give 0). -/
def loopWinCount (o : RouteOutcome) (q : String) : Nat :=
  match o.result with
  | some w => if w.name = q ∧ w.site = CallSite.loop then 1 else 0
  | none => 0

/-- The token count the candidate loop recorded for provider `q`:
`tokens_used` of the winning response when `q` won in the loop, else 0. -/
def loopWinTokens (o : RouteOutcome) (q : String) : Nat :=
  match o.result with
  | some w => if w.name = q ∧ w.site = CallSite.loop then w.resp.tokens_used else 0
  | none => 0

/-- Through the candidate loop, provider `q`'s budget counters change by
exactly the one recorded (request, tokens) increment when `q` wins in
the loop, and not at all otherwise. -/
theorem routeLoop_budget (providers : List (String × ProviderInfo)) (oracle : CallOracle)
    (json_mode images : Bool) (now : ℚ) (today : Nat) (q : String) (b0 : ProviderBudget)
    (hlr : b0.last_reset = today) :
    ∀ (cands : List String) (bu : BudgetMap) (hm : HealthMap)
      (att : List String) (lg : List CallEv), alistFind bu q = some b0 →
    ∃ b1, alistFind (routeLoop providers oracle json_mode images now today
        cands bu hm att lg).budget q = some b1 ∧
      b1.requests_today = b0.requests_today
        + loopWinCount (routeLoop providers oracle json_mode images now today
            cands bu hm att lg) q ∧
      b1.tokens_today = b0.tokens_today
        + loopWinTokens (routeLoop providers oracle json_mode images now today
            cands bu hm att lg) q := by
  intro cands
  induction cands with
  | nil =>
    intro bu hm att lg hq
    exact ⟨b0, by simpa [routeLoop] using hq, by simp [routeLoop, loopWinCount],
      by simp [routeLoop, loopWinTokens]⟩
  | cons name rest ih =>
    intro bu hm att lg hq
    have hqw : alistFind (trackerIsWithin bu name today).2 q = some b0 :=
      trackerIsWithin_preserves bu name q today b0 hq hlr
    rw [routeLoop]
    split
    · exact ih bu hm att lg hq
    · split
      · exact ih bu hm att lg hq
      · split
        · exact ih (trackerIsWithin bu name today).2 hm att lg hqw
        · split
          · exact ih (trackerIsWithin bu name today).2 hm att lg hqw
          · split
            · exact ih (trackerIsWithin bu name today).2 hm att lg hqw
            · split
              · rename_i resp ho
                by_cases hnq : name = q
                · subst hnq
                  refine ⟨budgetRecord b0 resp.tokens_used today, ?_, ?_, ?_⟩
                  · show alistFind (trackerRecord (trackerIsWithin bu name today).2
                        name resp.tokens_used today) name
                      = some (budgetRecord b0 resp.tokens_used today)
                    rw [trackerRecord_at_self _ _ _ _ _ hqw hlr]
                    simp [budgetRecord, maybeReset_of_last_reset_eq _ _ hlr]
                  · simp [loopWinCount, budgetRecord, maybeReset_of_last_reset_eq _ _ hlr]
                  · simp [loopWinTokens, budgetRecord, maybeReset_of_last_reset_eq _ _ hlr]
                · refine ⟨b0, ?_, ?_, ?_⟩
                  · show alistFind (trackerRecord (trackerIsWithin bu name today).2
                        name resp.tokens_used today) q = some b0
                    rw [trackerRecord_preserves_ne _ _ _ _ _ hnq]
                    exact hqw
                  · simp [loopWinCount, hnq]
                  · simp [loopWinTokens, hnq]
              · rename_i ho
                exact ih (trackerIsWithin bu name today).2 (recordFailure hm name now)
                  (att ++ [name]) (lg ++ [⟨name, false, CallSite.loop⟩]) hqw

/-- C1 counterexample: provider `groq` is configured, available, has a
budget entry with zero counters, and is requested via `prefer`.  The
call succeeds with `tokens_used = 7`, yet the final budget still shows
zero recorded requests and tokens: the `prefer` fast path returns
without calling `budget.record` (router.py lines 87-90), so a
successful prefer attempt is NOT recorded against the budget — the
claim requires every successful attempt, including one made via
`prefer`, to be recorded exactly once. -/
theorem route_prefer_no_record_counterexample :
    route [("groq", ProviderInfo.mk true false)]
        (fun _ _ => some (LLMResponseData.mk "ok" "m1" "groq" 7)) [] Intent.CHAT
        [("groq", ProviderBudget.mk 0 0 0 0 0)] [] 0 0 false (some "groq") false
      = RouteOutcome.mk
          (some (RouteWinner.mk "groq" (LLMResponseData.mk "ok" "m1" "groq" 7) CallSite.prefer))
          [("groq", ProviderBudget.mk 0 0 0 0 0)] [] []
          [CallEv.mk "groq" true CallSite.prefer]
    ∧ (LLMResponseData.mk "ok" "m1" "groq" 7).tokens_used ≠ 0 := by
  constructor
  · rfl
  · decide

/-- C1 amended: over a whole `route` call, a provider's budget counters
are incremented exactly once — by one request and the winning
response's token count — precisely when that provider returns the
successful response from the candidate loop; a success on the `prefer`
fast path and every failing attempt leave the counters unchanged.
(Stated for a budget entry already on today's date; rollover resetting
is C6's subject.) -/
theorem route_budget_amended (providers : List (String × ProviderInfo)) (oracle : CallOracle)
    (routesTable : List (Intent × Route)) (intent : Intent)
    (bu : BudgetMap) (hm : HealthMap) (now : ℚ) (today : Nat)
    (images : Bool) (prefer : Option String) (json_mode : Bool)
    (q : String) (b0 : ProviderBudget)
    (hq : alistFind bu q = some b0) (hlr : b0.last_reset = today) :
    ∃ b1, alistFind (route providers oracle routesTable intent bu hm now today
        images prefer json_mode).budget q = some b1 ∧
      b1.requests_today = b0.requests_today
        + loopWinCount (route providers oracle routesTable intent bu hm now today
            images prefer json_mode) q ∧
      b1.tokens_today = b0.tokens_today
        + loopWinTokens (route providers oracle routesTable intent bu hm now today
            images prefer json_mode) q := by
  cases prefer with
  | none =>
    rw [route]
    exact routeLoop_budget providers oracle json_mode images now today q b0 hlr _ bu hm [] [] hq
  | some pn =>
    have hqw : alistFind (trackerIsWithin bu pn today).2 q = some b0 :=
      trackerIsWithin_preserves bu pn q today b0 hq hlr
    rw [route]
    split
    · exact routeLoop_budget providers oracle json_mode images now today q b0 hlr _ bu hm [] [] hq
    · split
      · exact routeLoop_budget providers oracle json_mode images now today q b0 hlr _
          bu hm [] [] hq
      · split
        · exact routeLoop_budget providers oracle json_mode images now today q b0 hlr _
            (trackerIsWithin bu pn today).2 hm [] [] hqw
        · split
          · split
            · refine ⟨b0, hqw, ?_, ?_⟩
              · simp [loopWinCount]
              · simp [loopWinTokens]
            · exact routeLoop_budget providers oracle json_mode images now today q b0 hlr _
                (trackerIsWithin bu pn today).2 (recordFailure hm pn now) []
                [⟨pn, false, CallSite.prefer⟩] hqw
          · exact routeLoop_budget providers oracle json_mode images now today q b0 hlr _
              (trackerIsWithin bu pn today).2 hm [] [] hqw

/-- Witness for C1 amended: a concrete candidate-loop success on `groq`
(no `prefer`), starting from zero counters on today's date; the
conclusion instantiates to counters (1 request, 7 tokens). -/
theorem route_budget_amended_witness :
    alistFind [("groq", ProviderBudget.mk 0 0 0 0 0)] "groq"
        = some (ProviderBudget.mk 0 0 0 0 0) ∧
    (ProviderBudget.mk 0 0 0 0 0).last_reset = 0 ∧
    ∃ b1, alistFind (route [("groq", ProviderInfo.mk true false)]
        (fun _ _ => some (LLMResponseData.mk "ok" "m1" "groq" 7))
        [(Intent.CHAT, Route.mk "groq" [])] Intent.CHAT
        [("groq", ProviderBudget.mk 0 0 0 0 0)] [] 0 0 false none false).budget "groq"
        = some b1 ∧
      b1.requests_today = (ProviderBudget.mk 0 0 0 0 0).requests_today
        + loopWinCount (route [("groq", ProviderInfo.mk true false)]
            (fun _ _ => some (LLMResponseData.mk "ok" "m1" "groq" 7))
            [(Intent.CHAT, Route.mk "groq" [])] Intent.CHAT
            [("groq", ProviderBudget.mk 0 0 0 0 0)] [] 0 0 false none false) "groq" ∧
      b1.tokens_today = (ProviderBudget.mk 0 0 0 0 0).tokens_today
        + loopWinTokens (route [("groq", ProviderInfo.mk true false)]
            (fun _ _ => some (LLMResponseData.mk "ok" "m1" "groq" 7))
            [(Intent.CHAT, Route.mk "groq" [])] Intent.CHAT
            [("groq", ProviderBudget.mk 0 0 0 0 0)] [] 0 0 false none false) "groq" :=
  ⟨by decide, rfl,
    route_budget_amended _ _ _ _ _ _ 0 0 false none false _ _ (by decide) rfl⟩

/-! ## C2 — circuit-breaker timing -/

/-- A third consecutive failure at time `t` opens the circuit until
`t + 300` (router.py lines 150-154 with the threshold of 3). -/
theorem recordFailure_opens (hm : HealthMap) (p : String) (h0 : ProviderHealth) (t : ℚ)
    (hfind : alistFind hm p = some h0) (hcf : h0.consecutive_failures = 2) :
    alistFind (recordFailure hm p t) p = some (ProviderHealth.mk 3 t (t + 300)) := by
  unfold recordFailure
  rw [hfind]
  simp only [Option.getD_some, hcf]
  norm_num [CIRCUIT_BREAKER_THRESHOLD, CIRCUIT_BREAKER_COOLDOWN]
  exact alistFind_alistSet_self _ _ _

/-- While provider `p`'s circuit is open (`now < circuit_open_until`),
the candidate loop never calls `p` and leaves its health entry intact. -/
theorem routeLoop_skips_open (providers : List (String × ProviderInfo)) (oracle : CallOracle)
    (json_mode images : Bool) (now : ℚ) (today : Nat) (p : String) (hp : ProviderHealth)
    (hopen : now < hp.circuit_open_until) :
    ∀ (cands : List String) (bu : BudgetMap) (hm : HealthMap)
      (att : List String) (lg : List CallEv),
      alistFind hm p = some hp →
      (∀ e ∈ lg, e.name ≠ p) →
      (∀ e ∈ (routeLoop providers oracle json_mode images now today
          cands bu hm att lg).log, e.name ≠ p) ∧
      alistFind (routeLoop providers oracle json_mode images now today
          cands bu hm att lg).health p = some hp := by
  intro cands
  induction cands with
  | nil =>
    intro bu hm att lg hfind hlg
    exact ⟨by simpa [routeLoop] using hlg, by simpa [routeLoop] using hfind⟩
  | cons name rest ih =>
    intro bu hm att lg hfind hlg
    rw [routeLoop]
    split
    · exact ih bu hm att lg hfind hlg
    · split
      · exact ih bu hm att lg hfind hlg
      · split
        · exact ih (trackerIsWithin bu name today).2 hm att lg hfind hlg
        · split
          · exact ih (trackerIsWithin bu name today).2 hm att lg hfind hlg
          · split
            · exact ih (trackerIsWithin bu name today).2 hm att lg hfind hlg
            · rename_i hcirc
              have hnp : name ≠ p := by
                intro heq
                subst heq
                rw [hfind] at hcirc
                simp [hopen] at hcirc
              split
              · refine ⟨?_, ?_⟩
                · intro e he
                  rcases List.mem_append.mp he with he2 | he2
                  · exact hlg e he2
                  · simpa using (by simpa using he2 : e = ⟨name, true, CallSite.loop⟩) ▸ hnp
                · show alistFind (recordSuccess hm name) p = some hp
                  rw [recordSuccess_preserves_ne _ _ _ hnp]
                  exact hfind
              · refine ih (trackerIsWithin bu name today).2 (recordFailure hm name now)
                  (att ++ [name]) (lg ++ [⟨name, false, CallSite.loop⟩]) ?_ ?_
                · rw [recordFailure_preserves_ne _ _ _ _ hnp]
                  exact hfind
                · intro e he
                  rcases List.mem_append.mp he with he2 | he2
                  · exact hlg e he2
                  · simpa using (by simpa using he2 : e = ⟨name, false, CallSite.loop⟩) ▸ hnp

/-- While provider `p`'s circuit is open, a whole `route` call — the
`prefer` fast path included — never calls `p`, and `p`'s health entry
(hence the open breaker) survives the call unchanged. -/
theorem route_skips_open (providers : List (String × ProviderInfo)) (oracle : CallOracle)
    (routesTable : List (Intent × Route)) (intent : Intent)
    (bu : BudgetMap) (hm : HealthMap) (now : ℚ) (today : Nat)
    (images : Bool) (prefer : Option String) (json_mode : Bool)
    (p : String) (hp : ProviderHealth)
    (hfind : alistFind hm p = some hp) (hopen : now < hp.circuit_open_until) :
    (∀ e ∈ (route providers oracle routesTable intent bu hm now today
        images prefer json_mode).log, e.name ≠ p) ∧
    alistFind (route providers oracle routesTable intent bu hm now today
        images prefer json_mode).health p = some hp := by
  cases prefer with
  | none =>
    rw [route]
    exact routeLoop_skips_open providers oracle json_mode images now today p hp hopen
      _ bu hm [] [] hfind (by simp)
  | some pn =>
    rw [route]
    split
    · exact routeLoop_skips_open providers oracle json_mode images now today p hp hopen
        _ bu hm [] [] hfind (by simp)
    · split
      · exact routeLoop_skips_open providers oracle json_mode images now today p hp hopen
          _ bu hm [] [] hfind (by simp)
      · split
        · exact routeLoop_skips_open providers oracle json_mode images now today p hp hopen
            _ (trackerIsWithin bu pn today).2 hm [] [] hfind (by simp)
        · split
          · rename_i hcc
            have hnp : pn ≠ p := by
              intro heq
              subst heq
              rw [hfind] at hcc
              simp only [decide_eq_true_eq] at hcc
              exact absurd hcc (by simpa using hopen)
            split
            · refine ⟨?_, ?_⟩
              · intro e he
                have he2 : e = ⟨pn, true, CallSite.prefer⟩ := by simpa using he
                subst he2
                exact hnp
              · show alistFind (recordSuccess hm pn) p = some hp
                rw [recordSuccess_preserves_ne _ _ _ hnp]
                exact hfind
            · refine routeLoop_skips_open providers oracle json_mode images now today p hp hopen
                _ (trackerIsWithin bu pn today).2 (recordFailure hm pn now) []
                [⟨pn, false, CallSite.prefer⟩] ?_ ?_
              · rw [recordFailure_preserves_ne _ _ _ _ hnp]
                exact hfind
              · intro e he
                have he2 : e = ⟨pn, false, CallSite.prefer⟩ := by simpa using he
                subst he2
                exact hnp
          · exact routeLoop_skips_open providers oracle json_mode images now today p hp hopen
              _ (trackerIsWithin bu pn today).2 hm [] [] hfind (by simp)

/-- When the preferred provider is configured, available, within budget
and its circuit is closed (`now ≥ circuit_open_until`), the `prefer`
fast path does call it. -/
theorem route_prefer_attempts (providers : List (String × ProviderInfo)) (oracle : CallOracle)
    (routesTable : List (Intent × Route)) (intent : Intent)
    (bu : BudgetMap) (hm : HealthMap) (now : ℚ) (today : Nat)
    (images json_mode : Bool) (p : String) (info : ProviderInfo) (hp : ProviderHealth)
    (hfind : alistFind providers p = some info) (hav : info.is_available = true)
    (hw : (trackerIsWithin bu p today).1 = true)
    (hhm : alistFind hm p = some hp) (hnow : now ≥ hp.circuit_open_until) :
    ∃ e, e ∈ (route providers oracle routesTable intent bu hm now today
        images (some p) json_mode).log ∧ e.name = p := by
  simp only [route, hfind]
  rw [if_neg (not_not_intro hav)]
  rw [if_neg (not_not_intro hw)]
  rw [if_pos (show (match alistFind hm p with
      | none => true
      | some h => decide (now ≥ h.circuit_open_until)) = true by
    simp only [hhm]
    simpa using hnow)]
  cases ho : oracle p json_mode with
  | some resp =>
    simp only [ho]
    exact ⟨⟨p, true, CallSite.prefer⟩, by simp, rfl⟩
  | none =>
    simp only [ho]
    obtain ⟨lg2, hlog⟩ := routeLoop_log_extends providers oracle json_mode images
      now today (routeCandidates routesTable intent) (trackerIsWithin bu p today).2
      (recordFailure hm p now) [] [⟨p, false, CallSite.prefer⟩]
    exact ⟨⟨p, false, CallSite.prefer⟩, by rw [hlog]; simp, rfl⟩

/-- When the first candidate of the intent's route is configured,
available, within budget, vision-capable if images are present, and its
circuit is closed, the candidate loop does call it — for any value of
`json_mode`, since the loop has no JSON-mode capability check. -/
theorem route_head_attempts (providers : List (String × ProviderInfo)) (oracle : CallOracle)
    (routesTable : List (Intent × Route)) (intent : Intent)
    (bu : BudgetMap) (hm : HealthMap) (now : ℚ) (today : Nat)
    (images json_mode : Bool) (p : String) (fbs : List String)
    (info : ProviderInfo) (hp : ProviderHealth)
    (hroute : alistFind routesTable intent = some (Route.mk p fbs))
    (hfind : alistFind providers p = some info) (hav : info.is_available = true)
    (hw : (trackerIsWithin bu p today).1 = true)
    (hvis : images = true → info.supports_vision = true)
    (hhm : alistFind hm p = some hp) (hnow : now ≥ hp.circuit_open_until) :
    ∃ e, e ∈ (route providers oracle routesTable intent bu hm now today
        images none json_mode).log ∧ e.name = p := by
  have hcand : routeCandidates routesTable intent = p :: fbs := by
    simp [routeCandidates, hroute]
  rw [route, hcand]
  simp only [routeLoop, hfind]
  rw [if_neg (not_not_intro hav)]
  rw [if_neg (not_not_intro hw)]
  rw [if_neg (show ¬ (images = true ∧ ¬ info.supports_vision = true) from
    fun hv => hv.2 (hvis hv.1))]
  rw [if_neg (show ¬ ((match alistFind hm p with
      | some h => decide (now < h.circuit_open_until)
      | none => false) = true) by
    simp only [hhm]
    simpa using hnow)]
  cases ho : oracle p json_mode with
  | some resp =>
    simp only [ho]
    exact ⟨⟨p, true, CallSite.loop⟩, by simp, rfl⟩
  | none =>
    simp only [ho]
    obtain ⟨lg2, hlog⟩ := routeLoop_log_extends providers oracle json_mode images
      now today fbs (trackerIsWithin bu p today).2 (recordFailure hm p now)
      ([] ++ [p]) ([] ++ [⟨p, false, CallSite.loop⟩])
    exact ⟨⟨p, false, CallSite.loop⟩, by rw [hlog]; simp, rfl⟩

/-- C2: when provider `p`'s consecutive-failure counter reaches 3 at
monotonic time `t`, the breaker opens until `t + 300`; from then on
every `route` call made while `now < t + 300` skips `p` on both the
`prefer` path and the candidate loop (never calling it, and leaving the
open breaker in place for the next call), while at any `now ≥ t + 300`
a call that reaches `p` — as the preferred provider or as the first
candidate — with `p` configured, available, within budget (and
vision-capable if images are present) does call `p` again. -/
theorem circuit_breaker_timing (hm : HealthMap) (p : String) (h0 : ProviderHealth) (t : ℚ)
    (hfind0 : alistFind hm p = some h0) (hcf : h0.consecutive_failures = 2) :
    alistFind (recordFailure hm p t) p = some (ProviderHealth.mk 3 t (t + 300)) ∧
    (∀ (providers : List (String × ProviderInfo)) (oracle : CallOracle)
        (routesTable : List (Intent × Route)) (intent : Intent) (bu : BudgetMap)
        (hm2 : HealthMap) (now : ℚ) (today : Nat) (images : Bool)
        (prefer : Option String) (json_mode : Bool),
      alistFind hm2 p = some (ProviderHealth.mk 3 t (t + 300)) → now < t + 300 →
      (∀ e ∈ (route providers oracle routesTable intent bu hm2 now today
          images prefer json_mode).log, e.name ≠ p) ∧
      alistFind (route providers oracle routesTable intent bu hm2 now today
          images prefer json_mode).health p = some (ProviderHealth.mk 3 t (t + 300))) ∧
    (∀ (providers : List (String × ProviderInfo)) (oracle : CallOracle)
        (routesTable : List (Intent × Route)) (intent : Intent) (bu : BudgetMap)
        (hm2 : HealthMap) (now : ℚ) (today : Nat) (images json_mode : Bool)
        (info : ProviderInfo),
      alistFind hm2 p = some (ProviderHealth.mk 3 t (t + 300)) → now ≥ t + 300 →
      alistFind providers p = some info → info.is_available = true →
      (trackerIsWithin bu p today).1 = true →
      ∃ e, e ∈ (route providers oracle routesTable intent bu hm2 now today
          images (some p) json_mode).log ∧ e.name = p) ∧
    (∀ (providers : List (String × ProviderInfo)) (oracle : CallOracle)
        (routesTable : List (Intent × Route)) (intent : Intent) (bu : BudgetMap)
        (hm2 : HealthMap) (now : ℚ) (today : Nat) (images json_mode : Bool)
        (info : ProviderInfo) (fbs : List String),
      alistFind hm2 p = some (ProviderHealth.mk 3 t (t + 300)) → now ≥ t + 300 →
      alistFind routesTable intent = some (Route.mk p fbs) →
      alistFind providers p = some info → info.is_available = true →
      (trackerIsWithin bu p today).1 = true →
      (images = true → info.supports_vision = true) →
      ∃ e, e ∈ (route providers oracle routesTable intent bu hm2 now today
          images none json_mode).log ∧ e.name = p) := by
  refine ⟨recordFailure_opens hm p h0 t hfind0 hcf, ?_, ?_, ?_⟩
  · intro providers oracle routesTable intent bu hm2 now today images prefer json_mode
      hfind2 hnow
    exact route_skips_open providers oracle routesTable intent bu hm2 now today
      images prefer json_mode p (ProviderHealth.mk 3 t (t + 300)) hfind2 hnow
  · intro providers oracle routesTable intent bu hm2 now today images json_mode info
      hfind2 hnow hfindp hav hw
    exact route_prefer_attempts providers oracle routesTable intent bu hm2 now today
      images json_mode p info (ProviderHealth.mk 3 t (t + 300)) hfindp hav hw hfind2 hnow
  · intro providers oracle routesTable intent bu hm2 now today images json_mode info fbs
      hfind2 hnow hroute hfindp hav hw hvis
    exact route_head_attempts providers oracle routesTable intent bu hm2 now today
      images json_mode p fbs info (ProviderHealth.mk 3 t (t + 300)) hroute hfindp hav hw
      hvis hfind2 hnow

/-- Witness for C2 at a concrete health map: `openrouter` has 2
consecutive failures; a third failure at t = 10 opens the circuit until
310, with the skip/admit behaviour instantiated at that state. -/
theorem circuit_breaker_timing_witness :
    alistFind [("openrouter", ProviderHealth.mk 2 5 0)] "openrouter"
        = some (ProviderHealth.mk 2 5 0) ∧
    (ProviderHealth.mk 2 5 0).consecutive_failures = 2 ∧
    (alistFind (recordFailure [("openrouter", ProviderHealth.mk 2 5 0)] "openrouter" 10)
        "openrouter" = some (ProviderHealth.mk 3 10 (10 + 300)) ∧
      (∀ (providers : List (String × ProviderInfo)) (oracle : CallOracle)
          (routesTable : List (Intent × Route)) (intent : Intent) (bu : BudgetMap)
          (hm2 : HealthMap) (now : ℚ) (today : Nat) (images : Bool)
          (prefer : Option String) (json_mode : Bool),
        alistFind hm2 "openrouter" = some (ProviderHealth.mk 3 10 (10 + 300)) →
        now < 10 + 300 →
        (∀ e ∈ (route providers oracle routesTable intent bu hm2 now today
            images prefer json_mode).log, e.name ≠ "openrouter") ∧
        alistFind (route providers oracle routesTable intent bu hm2 now today
            images prefer json_mode).health "openrouter"
          = some (ProviderHealth.mk 3 10 (10 + 300))) ∧
      (∀ (providers : List (String × ProviderInfo)) (oracle : CallOracle)
          (routesTable : List (Intent × Route)) (intent : Intent) (bu : BudgetMap)
          (hm2 : HealthMap) (now : ℚ) (today : Nat) (images json_mode : Bool)
          (info : ProviderInfo),
        alistFind hm2 "openrouter" = some (ProviderHealth.mk 3 10 (10 + 300)) →
        now ≥ 10 + 300 →
        alistFind providers "openrouter" = some info → info.is_available = true →
        (trackerIsWithin bu "openrouter" today).1 = true →
        ∃ e, e ∈ (route providers oracle routesTable intent bu hm2 now today
            images (some "openrouter") json_mode).log ∧ e.name = "openrouter") ∧
      (∀ (providers : List (String × ProviderInfo)) (oracle : CallOracle)
          (routesTable : List (Intent × Route)) (intent : Intent) (bu : BudgetMap)
          (hm2 : HealthMap) (now : ℚ) (today : Nat) (images json_mode : Bool)
          (info : ProviderInfo) (fbs : List String),
        alistFind hm2 "openrouter" = some (ProviderHealth.mk 3 10 (10 + 300)) →
        now ≥ 10 + 300 →
        alistFind routesTable intent = some (Route.mk "openrouter" fbs) →
        alistFind providers "openrouter" = some info → info.is_available = true →
        (trackerIsWithin bu "openrouter" today).1 = true →
        (images = true → info.supports_vision = true) →
        ∃ e, e ∈ (route providers oracle routesTable intent bu hm2 now today
            images none json_mode).log ∧ e.name = "openrouter")) :=
  ⟨by decide, rfl,
    circuit_breaker_timing [("openrouter", ProviderHealth.mk 2 5 0)] "openrouter"
      (ProviderHealth.mk 2 5 0) 10 (by decide) rfl⟩

/-! ## C3 — JSON-mode capability matching -/

/-- Modelled from the spec: `supports_json_mode() → bool` (default true
for chat providers).  No such capability exists in
src/openclaw/llm/base.py or in any provider under src/, and
`LLMRouter.route` never consults one; this spec-side capability
assignment exists only to make the claimed JSON-mode skip statable. -/
def specSupportsJsonMode (caps : List (String × Bool)) (name : String) : Bool :=
  (alistFind caps name).getD true

/-- Every provider the candidate loop actually calls is configured,
available, and vision-capable whenever images are present: these,
with budget and the circuit, are the only skip conditions the loop
tests. -/
theorem routeLoop_calls_capable (providers : List (String × ProviderInfo)) (oracle : CallOracle)
    (json_mode images : Bool) (now : ℚ) (today : Nat) :
    ∀ (cands : List String) (bu : BudgetMap) (hm : HealthMap)
      (att : List String) (lg : List CallEv),
      (∀ e ∈ lg, e.site = CallSite.loop →
        ∃ info, alistFind providers e.name = some info ∧ info.is_available = true ∧
          (images = true → info.supports_vision = true)) →
      ∀ e ∈ (routeLoop providers oracle json_mode images now today
          cands bu hm att lg).log, e.site = CallSite.loop →
        ∃ info, alistFind providers e.name = some info ∧ info.is_available = true ∧
          (images = true → info.supports_vision = true) := by
  intro cands
  induction cands with
  | nil =>
    intro bu hm att lg hlg
    simpa [routeLoop] using hlg
  | cons name rest ih =>
    intro bu hm att lg hlg
    rw [routeLoop]
    split
    · exact ih bu hm att lg hlg
    · rename_i p2 hn
      split
      · exact ih bu hm att lg hlg
      · rename_i hav2
        split
        · exact ih (trackerIsWithin bu name today).2 hm att lg hlg
        · split
          · exact ih (trackerIsWithin bu name today).2 hm att lg hlg
          · rename_i hv2
            have hnew : ∃ info, alistFind providers name = some info ∧
                info.is_available = true ∧
                (images = true → info.supports_vision = true) := by
              refine ⟨p2, hn, not_not.mp hav2, ?_⟩
              intro hi
              by_contra hnv
              exact hv2 ⟨hi, hnv⟩
            split
            · exact ih (trackerIsWithin bu name today).2 hm att lg hlg
            · split
              · intro e he hsite
                rcases List.mem_append.mp he with he2 | he2
                · exact hlg e he2 hsite
                · have he3 : e = ⟨name, true, CallSite.loop⟩ := by simpa using he2
                  subst he3
                  exact hnew
              · refine ih (trackerIsWithin bu name today).2 (recordFailure hm name now)
                  (att ++ [name]) (lg ++ [⟨name, false, CallSite.loop⟩]) ?_
                intro e he hsite
                rcases List.mem_append.mp he with he2 | he2
                · exact hlg e he2 hsite
                · have he3 : e = ⟨name, false, CallSite.loop⟩ := by simpa using he2
                  subst he3
                  exact hnew

/-- Lifting of `routeLoop_calls_capable` to a whole `route` call: the
`prefer` path contributes only prefer-site events. -/
theorem route_calls_capable (providers : List (String × ProviderInfo)) (oracle : CallOracle)
    (routesTable : List (Intent × Route)) (intent : Intent)
    (bu : BudgetMap) (hm : HealthMap) (now : ℚ) (today : Nat)
    (images : Bool) (prefer : Option String) (json_mode : Bool) :
    ∀ e ∈ (route providers oracle routesTable intent bu hm now today
        images prefer json_mode).log, e.site = CallSite.loop →
      ∃ info, alistFind providers e.name = some info ∧ info.is_available = true ∧
        (images = true → info.supports_vision = true) := by
  cases prefer with
  | none =>
    rw [route]
    exact routeLoop_calls_capable providers oracle json_mode images now today
      _ bu hm [] [] (by simp)
  | some pn =>
    rw [route]
    split
    · exact routeLoop_calls_capable providers oracle json_mode images now today
        _ bu hm [] [] (by simp)
    · split
      · exact routeLoop_calls_capable providers oracle json_mode images now today
          _ bu hm [] [] (by simp)
      · split
        · exact routeLoop_calls_capable providers oracle json_mode images now today
            _ (trackerIsWithin bu pn today).2 hm [] [] (by simp)
        · split
          · split
            · intro e he hsite
              have he2 : e = ⟨pn, true, CallSite.prefer⟩ := by simpa using he
              subst he2
              simp at hsite
            · refine routeLoop_calls_capable providers oracle json_mode images now today
                _ (trackerIsWithin bu pn today).2 (recordFailure hm pn now) []
                [⟨pn, false, CallSite.prefer⟩] ?_
              intro e he hsite
              have he2 : e = ⟨pn, false, CallSite.prefer⟩ := by simpa using he
              subst he2
              simp at hsite
          · exact routeLoop_calls_capable providers oracle json_mode images now today
              _ (trackerIsWithin bu pn today).2 hm [] [] (by simp)

/-- C3 counterexample: `json_mode = true`, single candidate `groq`,
which under the spec-modelled capability does NOT support JSON mode,
yet the candidate loop attempts and calls it (the loop has no
`supports_json_mode` check — no such method exists in the code), where
the claim requires it to be skipped and never called. -/
theorem route_json_mode_counterexample :
    specSupportsJsonMode [("groq", false)] "groq" = false ∧
    route [("groq", ProviderInfo.mk true false)]
        (fun _ _ => some (LLMResponseData.mk "ok" "m1" "groq" 7))
        [(Intent.CHAT, Route.mk "groq" [])] Intent.CHAT [] [] 0 0 false none true
      = RouteOutcome.mk
          (some (RouteWinner.mk "groq" (LLMResponseData.mk "ok" "m1" "groq" 7) CallSite.loop))
          [] [] ["groq"] [CallEv.mk "groq" true CallSite.loop] := by
  constructor
  · rfl
  · rfl

/-- C3 amended: in the candidate loop, a candidate is skipped exactly
for the implemented conditions — unconfigured, unavailable, over
budget, circuit open, or images present without vision support; every
called candidate satisfies those.  JSON mode is not one of them: when
`json_mode` is requested, an otherwise-eligible first candidate is
still called even though it does not support JSON mode under any
spec-side capability assignment. -/
theorem route_no_json_mode_check_amended :
    (∀ (providers : List (String × ProviderInfo)) (oracle : CallOracle)
        (routesTable : List (Intent × Route)) (intent : Intent)
        (bu : BudgetMap) (hm : HealthMap) (now : ℚ) (today : Nat)
        (images : Bool) (prefer : Option String) (json_mode : Bool),
      ∀ e ∈ (route providers oracle routesTable intent bu hm now today
          images prefer json_mode).log, e.site = CallSite.loop →
        ∃ info, alistFind providers e.name = some info ∧ info.is_available = true ∧
          (images = true → info.supports_vision = true)) ∧
    (∀ (providers : List (String × ProviderInfo)) (oracle : CallOracle)
        (routesTable : List (Intent × Route)) (intent : Intent)
        (bu : BudgetMap) (hm : HealthMap) (now : ℚ) (today : Nat)
        (images : Bool) (caps : List (String × Bool)) (p : String)
        (fbs : List String) (info : ProviderInfo) (hp : ProviderHealth),
      specSupportsJsonMode caps p = false →
      alistFind routesTable intent = some (Route.mk p fbs) →
      alistFind providers p = some info → info.is_available = true →
      (trackerIsWithin bu p today).1 = true →
      (images = true → info.supports_vision = true) →
      alistFind hm p = some hp → now ≥ hp.circuit_open_until →
      ∃ e, e ∈ (route providers oracle routesTable intent bu hm now today
          images none true).log ∧ e.name = p) := by
  constructor
  · intro providers oracle routesTable intent bu hm now today images prefer json_mode
    exact route_calls_capable providers oracle routesTable intent bu hm now today
      images prefer json_mode
  · intro providers oracle routesTable intent bu hm now today images caps p fbs info hp
      hcaps hroute hfind hav hw hvis hhm hnow
    exact route_head_attempts providers oracle routesTable intent bu hm now today
      images true p fbs info hp hroute hfind hav hw hvis hhm hnow

/-- Witness for C3 amended at a concrete state: the vision/capability
property instantiated at a concrete route call, and the JSON-mode
non-skip instantiated for candidate `groq` with a capability table
denying it JSON support. -/
theorem route_no_json_mode_check_amended_witness :
    (∀ e ∈ (route [("groq", ProviderInfo.mk true false)]
        (fun _ _ => some (LLMResponseData.mk "ok" "m1" "groq" 7))
        [(Intent.CHAT, Route.mk "groq" [])] Intent.CHAT [] [] 0 0 false none true).log,
      e.site = CallSite.loop →
        ∃ info, alistFind [("groq", ProviderInfo.mk true false)] e.name = some info ∧
          info.is_available = true ∧ (false = true → info.supports_vision = true)) ∧
    (specSupportsJsonMode [("groq", false)] "groq" = false ∧
      ∃ e, e ∈ (route [("groq", ProviderInfo.mk true false)]
          (fun _ _ => some (LLMResponseData.mk "ok" "m1" "groq" 7))
          [(Intent.CHAT, Route.mk "groq" [])] Intent.CHAT
          [("groq", ProviderBudget.mk 0 0 0 0 0)] [("groq", ProviderHealth.mk 0 0 0)]
          0 0 false none true).log ∧ e.name = "groq") :=
  ⟨route_no_json_mode_check_amended.1 [("groq", ProviderInfo.mk true false)]
      (fun _ _ => some (LLMResponseData.mk "ok" "m1" "groq" 7))
      [(Intent.CHAT, Route.mk "groq" [])] Intent.CHAT [] [] 0 0 false none true,
    by decide,
    route_no_json_mode_check_amended.2 [("groq", ProviderInfo.mk true false)]
      (fun _ _ => some (LLMResponseData.mk "ok" "m1" "groq" 7))
      [(Intent.CHAT, Route.mk "groq" [])] Intent.CHAT
      [("groq", ProviderBudget.mk 0 0 0 0 0)] [("groq", ProviderHealth.mk 0 0 0)]
      0 0 false [("groq", false)] "groq" [] (ProviderInfo.mk true false)
      (ProviderHealth.mk 0 0 0) (by decide) (by decide) (by decide) rfl (by decide)
      (by simp) (by decide) (by decide)⟩

/-! ## Fault detection — openclaw/diagnosis/faults.py -/

/-- `FaultSeverity` enum (faults.py lines 14-18). -/
inductive FaultSeverity where
  | INFO | WARNING | CRITICAL | EMERGENCY
deriving DecidableEq, Repr

/-- `.value` of the severity enum members. -/
def severityValue : FaultSeverity → String
  | FaultSeverity.INFO => "info"
  | FaultSeverity.WARNING => "warning"
  | FaultSeverity.CRITICAL => "critical"
  | FaultSeverity.EMERGENCY => "emergency"

/-- `FaultDiagnosis` dataclass (faults.py lines 21-31). -/
structure FaultDiagnosis where
  fault_code : String
  severity : FaultSeverity
  title : String
  description : String
  likely_causes : List String
  suggested_checks : List String
  affected_tags : List String
  requires_maintenance : Bool := false
  requires_safety_review : Bool := false
deriving DecidableEq, Repr

/-- The values `detect_faults` extracts from the tag map with defaults
and coercions (faults.py lines 38-50); every downstream decision is a
function of exactly these.  PLC telemetry values are booleans and
numbers; numeric tags are ℚ where Python uses `float(...)` and ℤ where
it uses `int(...)`. -/
structure Tags where
  motor_running : Bool
  motor_speed : Int
  motor_current : ℚ
  temperature : ℚ
  pressure : Int
  conveyor_running : Bool
  conveyor_speed : Int
  sensor_1 : Bool
  sensor_2 : Bool
  fault_alarm : Bool
  e_stop : Bool
  error_code : Int
  error_message : String
deriving DecidableEq, Repr

/-- `severity_order` map (faults.py lines 172-173). -/
def severityOrder : FaultSeverity → Nat
  | FaultSeverity.EMERGENCY => 0
  | FaultSeverity.CRITICAL => 1
  | FaultSeverity.WARNING => 2
  | FaultSeverity.INFO => 3

/-- The sort key relation used by `faults.sort(key=...)` (faults.py
line 174). -/
def severityLE (a b : FaultDiagnosis) : Prop :=
  severityOrder a.severity ≤ severityOrder b.severity

instance : DecidableRel severityLE :=
  fun a b => Nat.decLe (severityOrder a.severity) (severityOrder b.severity)

instance : IsTotal FaultDiagnosis severityLE :=
  ⟨fun a b => Nat.le_total (severityOrder a.severity) (severityOrder b.severity)⟩

instance : IsTrans FaultDiagnosis severityLE :=
  ⟨fun _ _ _ hab hbc => Nat.le_trans hab hbc⟩

/-- Zero-padded 3-digit rendering for `f"PLC{error_code:03d}"`. -/
def pad3 (n : Nat) : String :=
  if n < 10 then "00" ++ toString n
  else if n < 100 then "0" ++ toString n
  else toString n

/-- The nine fault predicates of `detect_faults` with the appended
diagnoses, in source order (faults.py lines 52-154).  Numeric
interpolations in descriptions use `toString` where Python renders
fixed-point; only the static text matters to any property here. -/
def rawFaults (t : Tags) : List FaultDiagnosis :=
  (if t.e_stop then
    [{ fault_code := "E001", severity := FaultSeverity.EMERGENCY,
       title := "Emergency Stop Active",
       description := "The emergency stop button has been pressed. All motion is halted.",
       likely_causes := ["Operator pressed E-stop button", "Safety interlock triggered"],
       suggested_checks := ["Verify area is safe before reset",
         "Check for personnel in hazard zones", "Inspect equipment for damage",
         "Reset E-stop and clear faults in sequence"],
       affected_tags := ["e_stop", "motor_running", "conveyor_running"],
       requires_safety_review := true }] else []) ++
  (if t.motor_running ∧ t.motor_current > 5 then
    [{ fault_code := "M001", severity := FaultSeverity.CRITICAL,
       title := "Motor Overcurrent",
       description := "Motor current (" ++ toString t.motor_current
         ++ "A) exceeds safe limit (5.0A).",
       likely_causes := ["Mechanical binding or jam", "Bearing failure",
         "Belt tension too high"],
       suggested_checks := ["Check conveyor belt for jams", "Inspect motor bearings",
         "Verify belt tension", "Check motor thermal overload relay"],
       affected_tags := ["motor_current", "motor_running"],
       requires_maintenance := true }] else []) ++
  (if t.temperature > 80 then
    [{ fault_code := "T001", severity := FaultSeverity.CRITICAL,
       title := "High Temperature Alarm",
       description := "Temperature (" ++ toString t.temperature
         ++ "C) exceeds safe limit (80C).",
       likely_causes := ["Cooling fan failure", "Blocked ventilation",
         "Excessive motor load"],
       suggested_checks := ["Check cooling fan operation", "Clear blocked vents",
         "Reduce motor load temporarily", "Allow cooldown before restart"],
       affected_tags := ["temperature"],
       requires_maintenance := true }] else []) ++
  (if t.motor_running ∧ t.conveyor_running ∧ t.sensor_1 ∧ t.sensor_2 then
    [{ fault_code := "C001", severity := FaultSeverity.CRITICAL,
       title := "Conveyor Jam Detected",
       description := "Both part sensors are active simultaneously. Product flow is blocked.",
       likely_causes := ["Product jam at transfer point", "Misaligned part on conveyor"],
       suggested_checks := ["Clear jammed product from conveyor",
         "Check downstream equipment", "Verify sensor alignment", "Inspect guide rails"],
       affected_tags := ["sensor_1", "sensor_2", "conveyor_running"] }] else []) ++
  (if ¬ t.motor_running ∧ t.conveyor_speed > 0 ∧ ¬ t.e_stop then
    [{ fault_code := "M002", severity := FaultSeverity.CRITICAL,
       title := "Motor Stopped Unexpectedly",
       description := "Motor stopped but conveyor speed setpoint is non-zero.",
       likely_causes := ["Thermal overload tripped", "Motor contactor failure", "VFD fault"],
       suggested_checks := ["Check motor starter/contactor", "Verify VFD status",
         "Check thermal overload relay", "Verify power at motor terminals"],
       affected_tags := ["motor_running", "conveyor_speed"],
       requires_maintenance := true }] else []) ++
  (if t.pressure < 60 ∧ t.motor_running then
    [{ fault_code := "P001", severity := FaultSeverity.WARNING,
       title := "Low Pneumatic Pressure",
       description := "System pressure (" ++ toString t.pressure
         ++ " PSI) below normal (60+ PSI).",
       likely_causes := ["Compressed air supply issue", "Air leak",
         "Filter or regulator clogged"],
       suggested_checks := ["Check main air supply pressure", "Listen for air leaks",
         "Inspect air filter and regulator", "Verify compressor operation"],
       affected_tags := ["pressure"] }] else []) ++
  (if t.motor_running ∧ t.motor_speed < 30 ∧ t.conveyor_speed > 50 then
    [{ fault_code := "M003", severity := FaultSeverity.WARNING,
       title := "Motor Speed Mismatch",
       description := "Motor speed (" ++ toString t.motor_speed
         ++ "%) lower than setpoint (" ++ toString t.conveyor_speed ++ "%).",
       likely_causes := ["Belt slipping on pulleys", "Motor struggling under load"],
       suggested_checks := ["Check belt tension and condition", "Verify motor current",
         "Check VFD parameters", "Inspect drive components"],
       affected_tags := ["motor_speed", "conveyor_speed"] }] else []) ++
  (if 65 < t.temperature ∧ t.temperature ≤ 80 then
    [{ fault_code := "T002", severity := FaultSeverity.WARNING,
       title := "Elevated Temperature",
       description := "Temperature (" ++ toString t.temperature
         ++ "C) above normal (65C). Monitor closely.",
       likely_causes := ["Heavy continuous operation", "Reduced cooling efficiency"],
       suggested_checks := ["Monitor temperature trend", "Ensure cooling is adequate",
         "Plan maintenance window if trend continues"],
       affected_tags := ["temperature"] }] else []) ++
  (if t.fault_alarm ∧ t.error_code > 0 then
    [{ fault_code := "PLC" ++ pad3 t.error_code.toNat, severity := FaultSeverity.CRITICAL,
       title := "PLC Fault: " ++ (if t.error_message ≠ "" then t.error_message
         else "Error Code " ++ toString t.error_code),
       description := "The PLC has reported fault code " ++ toString t.error_code ++ ".",
       likely_causes := ["See PLC fault documentation"],
       suggested_checks := ["Review PLC fault log", "Check associated I/O points",
         "Verify sensor and actuator operation"],
       affected_tags := ["fault_alarm", "error_code"],
       requires_maintenance := true }] else [])

/-- The single INFO diagnosis appended when nothing triggered
(faults.py lines 156-170): `OK` when running, else `IDLE`. -/
def faultOK : FaultDiagnosis :=
  { fault_code := "OK", severity := FaultSeverity.INFO,
    title := "System Running Normally",
    description := "All monitored parameters are within normal ranges.",
    likely_causes := [], suggested_checks := [], affected_tags := [] }

def faultIDLE : FaultDiagnosis :=
  { fault_code := "IDLE", severity := FaultSeverity.INFO,
    title := "System Idle",
    description := "Equipment is stopped. Ready to start when commanded.",
    likely_causes := [], suggested_checks := [], affected_tags := [] }

/-- `detect_faults` (faults.py lines 34-175): collect triggered faults;
if none, emit one INFO diagnosis chosen by the motion flags; then sort
by severity ordinal.  `List.insertionSort` is a stable sort, so it
computes the same list as Python's stable `list.sort`. -/
def detect_faults (t : Tags) : List FaultDiagnosis :=
  List.insertionSort severityLE
    (if rawFaults t = [] then
      (if t.motor_running ∧ t.conveyor_running then [faultOK] else [faultIDLE])
    else rawFaults t)

/-- C5: for every tag map, `detect_faults` returns a non-empty list
sorted by non-decreasing severity ordinal (EMERGENCY < CRITICAL <
WARNING < INFO); when no fault predicate triggers, the result is
exactly one INFO diagnosis — `OK` when both motion flags are set,
`IDLE` otherwise. -/
theorem detect_faults_spec (t : Tags) :
    detect_faults t ≠ [] ∧
    List.Sorted severityLE (detect_faults t) ∧
    ((¬ (t.e_stop = true) ∧ ¬ (t.motor_running ∧ t.motor_current > 5) ∧
      ¬ (t.temperature > 80) ∧
      ¬ (t.motor_running ∧ t.conveyor_running ∧ t.sensor_1 ∧ t.sensor_2) ∧
      ¬ (¬ t.motor_running ∧ t.conveyor_speed > 0 ∧ ¬ t.e_stop) ∧
      ¬ (t.pressure < 60 ∧ t.motor_running) ∧
      ¬ (t.motor_running ∧ t.motor_speed < 30 ∧ t.conveyor_speed > 50) ∧
      ¬ (65 < t.temperature ∧ t.temperature ≤ 80) ∧
      ¬ (t.fault_alarm ∧ t.error_code > 0)) →
     detect_faults t
       = (if t.motor_running ∧ t.conveyor_running then [faultOK] else [faultIDLE]) ∧
     (detect_faults t).length = 1 ∧
     ∀ f ∈ detect_faults t, f.severity = FaultSeverity.INFO ∧
       (f.fault_code = "OK" ∨ f.fault_code = "IDLE")) := by
  refine ⟨?_, ?_, ?_⟩
  · intro hnil
    have hlen := List.length_insertionSort severityLE
      (if rawFaults t = [] then
        (if t.motor_running ∧ t.conveyor_running then [faultOK] else [faultIDLE])
      else rawFaults t)
    rw [detect_faults] at hnil
    rw [hnil] at hlen
    by_cases hr : rawFaults t = []
    · rw [if_pos hr] at hlen
      by_cases hm : t.motor_running = true ∧ t.conveyor_running = true
      · rw [if_pos hm] at hlen
        simp at hlen
      · rw [if_neg hm] at hlen
        simp at hlen
    · rw [if_neg hr] at hlen
      exact hr (List.length_eq_zero.mp hlen.symm)
  · exact List.sorted_insertionSort severityLE _
  · intro hno
    obtain ⟨h1, h2, h3, h4, h5, h6, h7, h8, h9⟩ := hno
    have hraw : rawFaults t = [] := by
      rw [rawFaults]
      rw [if_neg h1, if_neg h2, if_neg h3, if_neg h4, if_neg h5, if_neg h6,
        if_neg h7, if_neg h8, if_neg h9]
      rfl
    have hdet : detect_faults t
        = (if t.motor_running ∧ t.conveyor_running then [faultOK] else [faultIDLE]) := by
      rw [detect_faults, if_pos hraw]
      by_cases hm : t.motor_running = true ∧ t.conveyor_running = true
      · rw [if_pos hm]
        rfl
      · rw [if_neg hm]
        rfl
    refine ⟨hdet, ?_, ?_⟩
    · rw [hdet]
      by_cases hm : t.motor_running = true ∧ t.conveyor_running = true
      · rw [if_pos hm]
        rfl
      · rw [if_neg hm]
        rfl
    · intro f hf
      rw [hdet] at hf
      by_cases hm : t.motor_running = true ∧ t.conveyor_running = true
      · rw [if_pos hm] at hf
        have hfe : f = faultOK := by simpa using hf
        subst hfe
        exact ⟨rfl, Or.inl rfl⟩
      · rw [if_neg hm] at hf
        have hfe : f = faultIDLE := by simpa using hf
        subst hfe
        exact ⟨rfl, Or.inr rfl⟩

/-- Witness for C5 at the all-idle tag map (everything zero/false): one
IDLE diagnosis, with the no-trigger hypothesis discharged concretely. -/
theorem detect_faults_spec_witness :
    detect_faults (Tags.mk false 0 0 0 100 false 0 false false false false 0 "") ≠ [] ∧
    List.Sorted severityLE
      (detect_faults (Tags.mk false 0 0 0 100 false 0 false false false false 0 "")) ∧
    ((¬ ((Tags.mk false 0 0 0 100 false 0 false false false false 0 "").e_stop = true) ∧
      ¬ ((Tags.mk false 0 0 0 100 false 0 false false false false 0 "").motor_running ∧
        (Tags.mk false 0 0 0 100 false 0 false false false false 0 "").motor_current > 5) ∧
      ¬ ((Tags.mk false 0 0 0 100 false 0 false false false false 0 "").temperature > 80) ∧
      ¬ ((Tags.mk false 0 0 0 100 false 0 false false false false 0 "").motor_running ∧
        (Tags.mk false 0 0 0 100 false 0 false false false false 0 "").conveyor_running ∧
        (Tags.mk false 0 0 0 100 false 0 false false false false 0 "").sensor_1 ∧
        (Tags.mk false 0 0 0 100 false 0 false false false false 0 "").sensor_2) ∧
      ¬ (¬ (Tags.mk false 0 0 0 100 false 0 false false false false 0 "").motor_running ∧
        (Tags.mk false 0 0 0 100 false 0 false false false false 0 "").conveyor_speed > 0 ∧
        ¬ (Tags.mk false 0 0 0 100 false 0 false false false false 0 "").e_stop) ∧
      ¬ ((Tags.mk false 0 0 0 100 false 0 false false false false 0 "").pressure < 60 ∧
        (Tags.mk false 0 0 0 100 false 0 false false false false 0 "").motor_running) ∧
      ¬ ((Tags.mk false 0 0 0 100 false 0 false false false false 0 "").motor_running ∧
        (Tags.mk false 0 0 0 100 false 0 false false false false 0 "").motor_speed < 30 ∧
        (Tags.mk false 0 0 0 100 false 0 false false false false 0 "").conveyor_speed > 50) ∧
      ¬ (65 < (Tags.mk false 0 0 0 100 false 0 false false false false 0 "").temperature ∧
        (Tags.mk false 0 0 0 100 false 0 false false false false 0 "").temperature ≤ 80) ∧
      ¬ ((Tags.mk false 0 0 0 100 false 0 false false false false 0 "").fault_alarm ∧
        (Tags.mk false 0 0 0 100 false 0 false false false false 0 "").error_code > 0)) →
     detect_faults (Tags.mk false 0 0 0 100 false 0 false false false false 0 "")
       = (if (Tags.mk false 0 0 0 100 false 0 false false false false 0 "").motor_running ∧
            (Tags.mk false 0 0 0 100 false 0 false false false false 0 "").conveyor_running
          then [faultOK] else [faultIDLE]) ∧
     (detect_faults (Tags.mk false 0 0 0 100 false 0 false false false false 0 "")).length
       = 1 ∧
     ∀ f ∈ detect_faults (Tags.mk false 0 0 0 100 false 0 false false false false 0 ""),
       f.severity = FaultSeverity.INFO ∧
       (f.fault_code = "OK" ∨ f.fault_code = "IDLE")) :=
  detect_faults_spec (Tags.mk false 0 0 0 100 false 0 false false false false 0 "")

/-! ## Message types — openclaw/types.py, openclaw/messages/models.py -/

/-- The closed channel set (openclaw/types.py). -/
inductive Channel where
  | TELEGRAM | WHATSAPP | HTTP_API | WEBSOCKET
deriving DecidableEq, Repr

/-- `Attachment` (messages/models.py lines 12-17); raw bytes are opaque
here. -/
structure Attachment where
  type : String
  data : Option (List Nat) := none
  url : String := ""
  mime_type : String := ""
  filename : String := ""
deriving DecidableEq, Repr

/-- The fields of `InboundMessage` (messages/models.py lines 20-30)
that the dispatch core and skills read; `history` is the conversation
history carried in `metadata`. -/
structure InboundMessage where
  id : String
  channel : Channel
  user_id : String
  user_name : String := ""
  text : String := ""
  attachments : List Attachment := []
  history : List (String × String) := []
  intent : Intent := Intent.UNKNOWN
  node_id : String := ""
deriving DecidableEq, Repr

/-- `OutboundMessage` (messages/models.py lines 33-39). -/
structure OutboundMessage where
  channel : Channel
  user_id : String
  text : String
  attachments : List Attachment := []
  parse_mode : String := "markdown"
deriving DecidableEq, Repr

/-! ## DIAGNOSE skill Layer-0 path — openclaw/skills/builtin/diagnose.py -/

/-- `_LAYER0_FAULT_CODES` (diagnose.py line 16). -/
def LAYER0_FAULT_CODES : List String := ["E001", "M001", "M002", "T001", "C001"]

/-- `_ACTIONABLE_TYPES` (diagnose.py line 19). -/
def ACTIONABLE_TYPES : List String := ["procedure", "fault_code", "checklist", "troubleshooting"]

/-- The fields `_query_kb_with_sources` reads off each KB atom dict
(diagnose.py lines 212-218).  `score` models
`atom.get("score", atom.get("similarity", 0))`: 0 when absent, which
Python then treats as falsy ("no score"). -/
structure KBAtomRow where
  title : String := ""
  atom_type : String := ""
  summary : String := ""
  fixes : List String := []
  steps : List String := []
  source_url : String := ""
  score : ℚ := 0
deriving DecidableEq, Repr

/-- The KB connector calls the skill makes (search limits of 2 and 3
are applied KB-side, so each returned list has at most 3 atoms). -/
structure KBOracle where
  search_by_fault_code : String → List KBAtomRow
  search : String → List KBAtomRow

/-- Python string slice `s[:300]` (by characters). -/
def take300 (s : String) : String := (s.toList.take 300).asString

/-- The Layer-0 eligibility test for one (fault, atom) pair
(diagnose.py lines 232-235): the fault code and atom type are in the
allow sets, the atom has steps or fixes, and
`(score > 0.85 if score else True)`. -/
def layer0Eligible (fault : FaultDiagnosis) (a : KBAtomRow) : Prop :=
  fault.fault_code ∈ LAYER0_FAULT_CODES ∧ a.atom_type ∈ ACTIONABLE_TYPES ∧
  (a.steps ≠ [] ∨ a.fixes ≠ []) ∧ (if a.score ≠ 0 then a.score > 0.85 else True)

instance (fault : FaultDiagnosis) (a : KBAtomRow) : Decidable (layer0Eligible fault a) := by
  unfold layer0Eligible
  infer_instance

/-- The KB-context lines one atom contributes (diagnose.py 220-226). -/
def atomKBLines (a : KBAtomRow) : List String :=
  ["  - " ++ a.title ++ ": " ++ take300 a.summary] ++
  (if a.fixes ≠ [] then ["    Fixes: " ++ String.intercalate "; " (a.fixes.take 3)] else []) ++
  (if a.steps ≠ [] then ["    Steps: " ++ String.intercalate "; " (a.steps.take 3)] else []) ++
  (if a.source_url ≠ "" then ["    Source: " ++ a.source_url] else [])

/-- The source entry one atom contributes (diagnose.py 225-229):
markdown link when a URL exists, the bare title when only a title. -/
def atomSources (a : KBAtomRow) : List String :=
  if a.source_url ≠ "" then ["[" ++ a.title ++ "](" ++ a.source_url ++ ")"]
  else if a.title ≠ "" then [a.title] else []

/-- Python `enumerate(steps, 1)` rendered as numbered lines. -/
def numberSteps (steps : List String) : List String :=
  (List.range steps.length).zip steps |>.map (fun p => toString (p.1 + 1) ++ ". " ++ p.2)

/-- The Layer-0 answer block one eligible atom contributes
(diagnose.py 236-249), joined with newlines. -/
def layer0Part (fault : FaultDiagnosis) (a : KBAtomRow) : String :=
  String.intercalate "\n"
    (["**" ++ a.title ++ "** (KB match for " ++ fault.fault_code ++ ")", ""] ++
     (if a.summary ≠ "" then [take300 a.summary, ""] else []) ++
     (if a.steps ≠ [] then ["**Steps:**"] ++ numberSteps a.steps ++ [""] else []) ++
     (if a.fixes ≠ [] then ["**Known fixes:**"] ++ a.fixes.map (fun f => "- " ++ f) else []))

/-- The Layer-0 contribution of one atom: one part when eligible. -/
def atomLayer0 (fault : FaultDiagnosis) (a : KBAtomRow) : List String :=
  if layer0Eligible fault a then [layer0Part fault a] else []

/-- Accumulator of `_query_kb_with_sources`:
(kb_lines, sources, layer0_parts). -/
abbrev KBAcc : Type := List String × List String × List String

/-- The inner `for atom in atoms[:3]` loop (diagnose.py 211-249). -/
def atomsGo (fault : FaultDiagnosis) : List KBAtomRow → KBAcc → KBAcc
  | [], acc => acc
  | a :: rest, acc =>
    atomsGo fault rest
      (acc.1 ++ atomKBLines a, acc.2.1 ++ atomSources a, acc.2.2 ++ atomLayer0 fault a)

/-- The atoms examined for one fault (diagnose.py 199-207): fault-code
search first, full-text search on the description as fallback. -/
def diagMatchedAtoms (k : KBOracle) (fault : FaultDiagnosis) : List KBAtomRow :=
  if k.search_by_fault_code fault.fault_code = [] then k.search fault.description
  else k.search_by_fault_code fault.fault_code

/-- One iteration of the `for fault in faults` loop (diagnose.py
195-249): skip OK/IDLE, skip faults with no matching atoms, else add
the header line and process the first three atoms. -/
def processFault (k : KBOracle) (fault : FaultDiagnosis) (acc : KBAcc) : KBAcc :=
  if fault.fault_code = "OK" ∨ fault.fault_code = "IDLE" then acc
  else if diagMatchedAtoms k fault = [] then acc
  else
    atomsGo fault ((diagMatchedAtoms k fault).take 3)
      (acc.1 ++ ["\n[" ++ fault.fault_code ++ "] " ++ fault.title ++ ":"], acc.2.1, acc.2.2)

def queryKBGo (k : KBOracle) : List FaultDiagnosis → KBAcc → KBAcc
  | [], acc => acc
  | fault :: rest, acc => queryKBGo k rest (processFault k fault acc)

/-- The result dict of `_query_kb_with_sources` (diagnose.py 179-261). -/
structure QueryKBResult where
  context : String
  sources : List String
  layer0_hit : Bool
  layer0_answer : String
deriving DecidableEq, Repr

/-- `DiagnoseSkill._query_kb_with_sources` over the faults list: run
the accumulation loop and assemble the result; `layer0_hit` is set iff
any Layer-0 part accumulated. -/
def queryKBWithSources (kb : Option KBOracle) (faults : List FaultDiagnosis) : QueryKBResult :=
  match kb with
  | none => ⟨"", [], false, ""⟩
  | some k =>
    let acc := queryKBGo k faults ([], [], [])
    ⟨String.intercalate "\n" acc.1, acc.2.1, decide (acc.2.2 ≠ []),
      String.intercalate "\n\n---\n\n" acc.2.2⟩

/-- `DiagnoseSkill._format_fault_summary` (diagnose.py 164-175). -/
def formatFaultSummary (faults : List FaultDiagnosis) : String :=
  String.intercalate "\n"
    (faults.foldl (fun acc f =>
      if f.fault_code = "OK" ∨ f.fault_code = "IDLE" then acc
      else acc ++
        [(if severityValue f.severity = "emergency" then "!!!"
          else if severityValue f.severity = "critical" then "[!]"
          else if severityValue f.severity = "warning" then "[~]"
          else "[i]") ++ " **" ++ f.fault_code ++ ": " ++ f.title ++ "**",
         "  " ++ f.description]) [])

/-- How `DiagnoseSkill.handle` proceeds once telemetry tags were
obtained (diagnose.py lines 39-94): either the Layer-0 short-circuit
reply (step 4, returning with no LLM call), or the LLM path (steps
5-8), which builds a prompt from the faults and KB context and calls
`context.llm.route`.  The constructor records which path was taken; the
`llmPath` constructor carries the data the router call is built from. -/
inductive DiagnoseOutcome where
  | layer0 (reply : OutboundMessage)
  | llmPath (faults : List FaultDiagnosis) (kbr : QueryKBResult)
deriving DecidableEq, Repr

def diagnoseHandleWithTags (m : InboundMessage) (kb : Option KBOracle) (tags : Tags) :
    DiagnoseOutcome :=
  let faults := detect_faults tags
  let kbr := queryKBWithSources kb faults
  if kbr.layer0_hit then
    let body := formatFaultSummary faults ++ "\n\n" ++ kbr.layer0_answer
    let body2 :=
      if kbr.sources ≠ [] then
        body ++ "\n\n**Sources:**\n"
          ++ String.intercalate "\n" (kbr.sources.map (fun s => "- " ++ s))
      else body
    DiagnoseOutcome.layer0
      ⟨m.channel, m.user_id, body2 ++ "\n\n_Layer 0 (KB direct) | 0ms_", [], "markdown"⟩
  else
    DiagnoseOutcome.llmPath faults kbr

theorem atomsGo_parts_extends (fault : FaultDiagnosis) :
    ∀ (atoms : List KBAtomRow) (acc : KBAcc),
      ∃ ext, (atomsGo fault atoms acc).2.2 = acc.2.2 ++ ext := by
  intro atoms
  induction atoms with
  | nil => intro acc; exact ⟨[], by simp [atomsGo]⟩
  | cons a rest ih =>
    intro acc
    rw [atomsGo]
    obtain ⟨ext, hext⟩ := ih (acc.1 ++ atomKBLines a, acc.2.1 ++ atomSources a,
      acc.2.2 ++ atomLayer0 fault a)
    exact ⟨atomLayer0 fault a ++ ext, by simpa using hext⟩

theorem atomsGo_parts_ne_of_mem (fault : FaultDiagnosis) (a : KBAtomRow)
    (hel : layer0Eligible fault a) :
    ∀ (atoms : List KBAtomRow) (acc : KBAcc), a ∈ atoms →
      (atomsGo fault atoms acc).2.2 ≠ [] := by
  intro atoms
  induction atoms with
  | nil => intro acc ha; simp at ha
  | cons b rest ih =>
    intro acc ha
    rw [atomsGo]
    rcases List.mem_cons.mp ha with hab | ha2
    · subst hab
      obtain ⟨ext, hext⟩ := atomsGo_parts_extends fault rest
        (acc.1 ++ atomKBLines a, acc.2.1 ++ atomSources a, acc.2.2 ++ atomLayer0 fault a)
      rw [hext]
      simp only [atomLayer0, if_pos hel]
      simp
    · exact ih _ ha2

theorem queryKBGo_parts_extends (k : KBOracle) :
    ∀ (faults : List FaultDiagnosis) (acc : KBAcc),
      ∃ ext, (queryKBGo k faults acc).2.2 = acc.2.2 ++ ext := by
  intro faults
  induction faults with
  | nil => intro acc; exact ⟨[], by simp [queryKBGo]⟩
  | cons fault rest ih =>
    intro acc
    rw [queryKBGo]
    obtain ⟨ext1, hext1⟩ : ∃ ext1, (processFault k fault acc).2.2 = acc.2.2 ++ ext1 := by
      unfold processFault
      split
      · exact ⟨[], by simp⟩
      · split
        · exact ⟨[], by simp⟩
        · obtain ⟨e2, he2⟩ := atomsGo_parts_extends fault ((diagMatchedAtoms k fault).take 3)
            (acc.1 ++ ["\n[" ++ fault.fault_code ++ "] " ++ fault.title ++ ":"],
              acc.2.1, acc.2.2)
          exact ⟨e2, by simpa using he2⟩
    obtain ⟨ext2, hext2⟩ := ih (processFault k fault acc)
    exact ⟨ext1 ++ ext2, by rw [hext2, hext1, List.append_assoc]⟩

theorem layer0_code_not_ok_idle (c : String) (h : c ∈ LAYER0_FAULT_CODES) :
    ¬ (c = "OK" ∨ c = "IDLE") := by
  simp only [LAYER0_FAULT_CODES, List.mem_cons, List.not_mem_nil, or_false] at h
  rcases h with rfl | rfl | rfl | rfl | rfl <;> decide

theorem queryKBGo_hit (k : KBOracle) (fault : FaultDiagnosis) (a : KBAtomRow)
    (hcode : fault.fault_code ∈ LAYER0_FAULT_CODES)
    (hel : layer0Eligible fault a)
    (hmem : a ∈ diagMatchedAtoms k fault)
    (hlen : (diagMatchedAtoms k fault).length ≤ 3) :
    ∀ (faults : List FaultDiagnosis) (acc : KBAcc), fault ∈ faults →
      (queryKBGo k faults acc).2.2 ≠ [] := by
  intro faults
  induction faults with
  | nil => intro acc hf; simp at hf
  | cons g rest ih =>
    intro acc hf
    rw [queryKBGo]
    rcases List.mem_cons.mp hf with hgf | hf2
    · subst hgf
      obtain ⟨ext2, hext2⟩ := queryKBGo_parts_extends k rest (processFault k fault acc)
      rw [hext2]
      intro hcontra
      have hpf : (processFault k fault acc).2.2 ≠ [] := by
        unfold processFault
        rw [if_neg (layer0_code_not_ok_idle _ hcode)]
        rw [if_neg (List.ne_nil_of_mem hmem)]
        rw [List.take_of_length_le hlen]
        exact atomsGo_parts_ne_of_mem fault a hel _ _ hmem
      exact hpf (List.append_eq_nil.mp hcontra).1
    · exact ih (processFault k g acc) hf2

/-- C4: whenever some detected fault's code is in
{E001, M001, M002, T001, C001} and a KB atom matched for that fault has
an actionable type, carries non-empty steps or fixes, and has score
above 0.85 or no score, `DiagnoseSkill.handle` takes the Layer-0
short-circuit: it returns a reply on the same channel/user built from
the fault summary, the atom-derived answer and the sources, ending
with the marker `_Layer 0 (KB direct) | 0ms_`, and makes no LLM router
call on that path (the `llmPath` outcome, which carries the router
call, is not taken). -/
theorem diagnose_layer0_short_circuit (m : InboundMessage) (k : KBOracle) (tags : Tags)
    (fault : FaultDiagnosis) (a : KBAtomRow)
    (hfault : fault ∈ detect_faults tags)
    (hcode : fault.fault_code ∈ LAYER0_FAULT_CODES)
    (htype : a.atom_type ∈ ACTIONABLE_TYPES)
    (hact : a.steps ≠ [] ∨ a.fixes ≠ [])
    (hscore : a.score = 0 ∨ a.score > 0.85)
    (hmem : a ∈ diagMatchedAtoms k fault)
    (hlen : (diagMatchedAtoms k fault).length ≤ 3) :
    ∃ reply, diagnoseHandleWithTags m (some k) tags = DiagnoseOutcome.layer0 reply ∧
      reply.channel = m.channel ∧ reply.user_id = m.user_id ∧
      ∃ pre, reply.text = pre ++ "\n\n_Layer 0 (KB direct) | 0ms_" := by
  have hel : layer0Eligible fault a := by
    refine ⟨hcode, htype, hact, ?_⟩
    rcases hscore with h0 | hgt
    · rw [if_neg (by simpa using h0)]
      trivial
    · split
      · exact hgt
      · trivial
  have hhit : (queryKBWithSources (some k) (detect_faults tags)).layer0_hit = true := by
    unfold queryKBWithSources
    simp only [decide_eq_true_eq]
    exact queryKBGo_hit k fault a hcode hel hmem hlen (detect_faults tags) ([], [], []) hfault
  unfold diagnoseHandleWithTags
  rw [if_pos hhit]
  exact ⟨_, rfl, rfl, rfl, _, rfl⟩

/-- Witness for C4: e-stop pressed (fault `E001`), the KB returning one
`procedure` atom with two steps and score 0.9; the skill answers via
Layer 0. -/
theorem diagnose_layer0_short_circuit_witness :
    (let tags : Tags := Tags.mk false 0 0 0 100 false 0 false false false true 0 "";
     let k : KBOracle := KBOracle.mk
       (fun c => if c = "E001" then
          [KBAtomRow.mk "E-Stop Reset Procedure" "procedure" "How to reset the e-stop"
            [] ["Check the area is safe", "Twist the e-stop button to release"] "" (9/10)]
        else [])
       (fun _ => []);
     let m : InboundMessage := InboundMessage.mk "m1" Channel.TELEGRAM "7" "" "why stopped"
       [] [] Intent.DIAGNOSE "";
     ∃ reply, diagnoseHandleWithTags m (some k) tags = DiagnoseOutcome.layer0 reply ∧
       reply.channel = m.channel ∧ reply.user_id = m.user_id ∧
       ∃ pre, reply.text = pre ++ "\n\n_Layer 0 (KB direct) | 0ms_") := by
  refine diagnose_layer0_short_circuit _ _ _
    (FaultDiagnosis.mk "E001" FaultSeverity.EMERGENCY "Emergency Stop Active"
      "The emergency stop button has been pressed. All motion is halted."
      ["Operator pressed E-stop button", "Safety interlock triggered"]
      ["Verify area is safe before reset", "Check for personnel in hazard zones",
        "Inspect equipment for damage", "Reset E-stop and clear faults in sequence"]
      ["e_stop", "motor_running", "conveyor_running"] false true)
    (KBAtomRow.mk "E-Stop Reset Procedure" "procedure" "How to reset the e-stop"
      [] ["Check the area is safe", "Twist the e-stop button to release"] "" (9/10))
    ?_ ?_ ?_ ?_ ?_ ?_ ?_
  · decide
  · decide
  · decide
  · decide
  · right
    norm_num
  · simp [diagMatchedAtoms]
  · simp [diagMatchedAtoms]

/-! ## Dispatch core — openclaw/app.py -/

/-- The reply body a skill computes (text, attachments, parse mode).
Every builtin skill's `handle` wraps its body in an `OutboundMessage`
whose `channel` and `user_id` are copied from the inbound message at
every return site (verified against skills/builtin/: diagnose, status,
chat, photo, work_order, admin, search, shell, diagram, gist, project,
wiring_enrich); the body production — connector and router calls
included — is abstracted as a function of the message. -/
structure ReplyBody where
  text : String
  attachments : List Attachment := []
  parse_mode : String := "markdown"

/-- A skill's `handle`, abstracted to its reply body; `Except.error`
models an exception escaping the skill. -/
abbrev SkillBehavior : Type := InboundMessage → Except Unit ReplyBody

/-- Wrapping of a skill body in the reply envelope, as every builtin
skill's return sites do: `OutboundMessage(channel=message.channel,
user_id=message.user_id, ...)`. -/
def skillHandle (behavior : SkillBehavior) (m : InboundMessage) : Except Unit OutboundMessage :=
  (behavior m).map (fun b => ⟨m.channel, m.user_id, b.text, b.attachments, b.parse_mode⟩)

/-- `dispatch` (app.py lines 110-137): classify when the intent is
UNKNOWN, look up the skill, fall back to the CHAT skill, return an
error-shaped message when neither exists, and catch any exception from
the skill into a generic error reply.  The classifier is an oracle;
`registry` is the Intent → Skill dict. -/
def dispatch (registry : List (Intent × SkillBehavior))
    (classify : InboundMessage → Intent) (m : InboundMessage) : OutboundMessage :=
  let intent := if m.intent = Intent.UNKNOWN then classify m else m.intent
  let m2 := { m with intent := intent }
  match (match alistFind registry intent with
         | some skill => some skill
         | none => alistFind registry Intent.CHAT) with
  | none =>
    ⟨m.channel, m.user_id, "No skill available to handle this request.", [], "markdown"⟩
  | some skill =>
    match skillHandle skill m2 with
    | Except.ok response => response
    | Except.error _ =>
      ⟨m.channel, m.user_id,
        "An error occurred processing your request. Please try again.", [], "markdown"⟩

/-- C8: `dispatch` always returns an `OutboundMessage` (total by type —
the no-skill and exception paths return error-shaped messages), and its
`channel` and `user_id` equal those of the triggering InboundMessage,
on every path. -/
theorem dispatch_preserves_envelope (registry : List (Intent × SkillBehavior))
    (classify : InboundMessage → Intent) (m : InboundMessage) :
    (dispatch registry classify m).channel = m.channel ∧
    (dispatch registry classify m).user_id = m.user_id := by
  rw [dispatch]
  split
  · exact ⟨rfl, rfl⟩
  · rename_i skill hs
    unfold skillHandle
    cases hb : skill { m with
        intent := if m.intent = Intent.UNKNOWN then classify m else m.intent } with
    | ok body => simp [hb, Except.map]
    | error e => simp [hb, Except.map]

/-! ## Telegram long-message chunking — openclaw/gateway/telegram.py -/

/-- The platform limit (telegram.py line 120). -/
def TELEGRAM_MAX : Nat := 4096

/-- One left-to-right pass implementing Python `text.rfind(sub, 0, stop)`
on character lists: the last index `i` with `i + sub.length ≤ stop` at
which `sub` occurs; `none` for Python's -1. -/
def rfindAux (sub : List Char) (stop : Nat) : List Char → Nat → Option Nat → Option Nat
  | s, i, best =>
    if i + sub.length > stop then best
    else
      match s with
      | [] => if sub.isPrefixOf ([] : List Char) then some i else best
      | _ :: rest =>
        rfindAux sub stop rest (i + 1) (if sub.isPrefixOf s then some i else best)

def rfindIn (s sub : List Char) (stop : Nat) : Option Nat :=
  rfindAux sub stop s 0 none

/-- The split-point choice of `_send_long` (telegram.py lines 130-134):
last double newline before the limit, else last single newline, else
a hard cut at the limit. -/
def sendLongCut (text : List Char) : Nat :=
  match rfindIn text [Char.ofNat 10, Char.ofNat 10] TELEGRAM_MAX with
  | some i => i
  | none =>
    match rfindIn text [Char.ofNat 10] TELEGRAM_MAX with
    | some i => i
    | none => TELEGRAM_MAX

/-- The `while text:` chunking loop (telegram.py lines 126-136), with
fuel bounded by the text length: each iteration either consumes the
rest of the text or strictly shortens it (a cut of 0 means the text
starts with a newline, which `lstrip` removes). -/
def sendLongGo : Nat → List Char → List (List Char)
  | 0, _ => []
  | fuel + 1, text =>
    if text = [] then []
    else if text.length ≤ TELEGRAM_MAX then [text]
    else
      text.take (sendLongCut text)
        :: sendLongGo fuel ((text.drop (sendLongCut text)).dropWhile (fun c => c = Char.ofNat 10))

/-- `TelegramAdapter._send_long` (telegram.py lines 118-142), as the
list of message chunks sent: a text within the limit is sent whole
(lines 121-123); otherwise the chunking loop runs. -/
def sendLongChunks (text : List Char) : List (List Char) :=
  if text.length ≤ TELEGRAM_MAX then [text]
  else sendLongGo (text.length + 1) text

theorem rfindAux_no_match (sub : List Char) (stop : Nat) (c : Char) (hc : sub.head? = some c) :
    ∀ (s : List Char) (i : Nat),
      (∀ k x, i + k + sub.length ≤ stop → s.get? k = some x → x ≠ c) →
      rfindAux sub stop s i none = none := by
  intro s
  induction s with
  | nil =>
    intro i _
    rw [rfindAux]
    split
    · rfl
    · cases sub with
      | nil => simp at hc
      | cons x tail => rfl
  | cons d rest ih =>
    intro i hyp
    rw [rfindAux]
    split
    · rfl
    · rename_i hle
      have hd : sub.isPrefixOf (d :: rest) = false := by
        cases sub with
        | nil => simp at hc
        | cons x tail =>
          have hx : x = c := by simpa using hc
          by_contra hcontra
          have hpre2 : (x :: tail).isPrefixOf (d :: rest) = true := by
            simpa using hcontra
          have hxd : x = d ∧ tail.isPrefixOf rest = true := by
            simpa [List.isPrefixOf] using hpre2
          have hdc : d ≠ c := hyp 0 d (by omega) rfl
          exact hdc (hxd.1.symm.trans hx)
      rw [hd, if_neg (show ¬ (false = true) by decide)]
      exact ih (i + 1)
        (fun k x hk hget => hyp (k + 1) x (by omega) (by simpa using hget))

theorem sendLongGo_nil : ∀ fuel, sendLongGo fuel [] = [] := by
  intro fuel
  cases fuel with
  | zero => rfl
  | succ f =>
    rw [sendLongGo]
    rw [if_pos rfl]

/-- C9 counterexample: the 4097-character text of 4096 `a`s followed by
one newline is sent as ONE chunk, not two — the newline suffix after
the hard cut is stripped by `lstrip` and the loop ends.  The claim
requires every 4097-character text to produce two chunks. -/
theorem send_long_counterexample :
    sendLongChunks (List.replicate 4096 'a' ++ [Char.ofNat 10])
      = [List.replicate 4096 'a'] ∧
    (List.replicate 4096 'a' ++ [Char.ofNat 10]).length = 4097 ∧
    (sendLongChunks (List.replicate 4096 'a' ++ [Char.ofNat 10])).length = 1 := by
  have hlen : (List.replicate 4096 'a' ++ [Char.ofNat 10]).length = 4097 := by
    rw [List.length_append, List.length_replicate]
    rfl
  have hchar : ∀ (k : Nat) (x : Char), k < 4096 →
      (List.replicate 4096 'a' ++ [Char.ofNat 10]).get? k = some x → x ≠ Char.ofNat 10 := by
    intro k x hk hget
    rw [List.get?_eq_getElem?, List.getElem?_append_left (by rw [List.length_replicate]; exact hk),
      ← List.get?_eq_getElem?] at hget
    have hx := List.eq_of_mem_replicate (List.get?_mem hget)
    subst hx
    decide
  have h2 : rfindIn (List.replicate 4096 'a' ++ [Char.ofNat 10])
      [Char.ofNat 10, Char.ofNat 10] TELEGRAM_MAX = none := by
    unfold rfindIn
    refine rfindAux_no_match [Char.ofNat 10, Char.ofNat 10] TELEGRAM_MAX
      (Char.ofNat 10) rfl _ 0 ?_
    intro k x hk hget
    have hk2 : k < 4096 := by
      simp only [TELEGRAM_MAX, List.length_cons, List.length_nil] at hk
      omega
    exact hchar k x hk2 hget
  have h1 : rfindIn (List.replicate 4096 'a' ++ [Char.ofNat 10])
      [Char.ofNat 10] TELEGRAM_MAX = none := by
    unfold rfindIn
    refine rfindAux_no_match [Char.ofNat 10] TELEGRAM_MAX (Char.ofNat 10) rfl _ 0 ?_
    intro k x hk hget
    have hk2 : k < 4096 := by
      simp only [TELEGRAM_MAX, List.length_cons, List.length_nil] at hk
      omega
    exact hchar k x hk2 hget
  have hcut : sendLongCut (List.replicate 4096 'a' ++ [Char.ofNat 10]) = 4096 := by
    unfold sendLongCut
    rw [h2, h1]
    rfl
  have htake : (List.replicate 4096 'a' ++ [Char.ofNat 10]).take 4096
      = List.replicate 4096 'a' := List.take_left' (by rw [List.length_replicate])
  have hdrop : (List.replicate 4096 'a' ++ [Char.ofNat 10]).drop 4096
      = [Char.ofNat 10] := List.drop_left' (by rw [List.length_replicate])
  have hmain : sendLongChunks (List.replicate 4096 'a' ++ [Char.ofNat 10])
      = [List.replicate 4096 'a'] := by
    have hne : (List.replicate 4096 'a' ++ [Char.ofNat 10]) ≠ [] := by
      intro hh
      have h0 := congrArg List.length hh
      rw [hlen] at h0
      exact absurd h0 (by decide)
    unfold sendLongChunks
    rw [if_neg (by rw [hlen]; decide)]
    rw [sendLongGo]
    rw [if_neg hne]
    rw [if_neg (by rw [hlen]; decide)]
    rw [hcut, htake, hdrop]
    have hdw : ([Char.ofNat 10].dropWhile (fun c => c = Char.ofNat 10)) = [] := by decide
    rw [hdw, sendLongGo_nil]
  exact ⟨hmain, hlen, by rw [hmain]; rfl⟩

theorem sendLongGo_small (r : List Char) (hr : r ≠ []) (hrl : r.length ≤ TELEGRAM_MAX) :
    ∀ fuel, 0 < fuel → sendLongGo fuel r = [r] := by
  intro fuel hf
  obtain ⟨f, rfl⟩ : ∃ f, fuel = f + 1 := ⟨fuel - 1, by omega⟩
  rw [sendLongGo]
  rw [if_neg hr, if_pos hrl]

/-- C9 amended: a reply text of exactly 4096 characters is sent as one
chunk; a 4097-character text containing no newline is sent as exactly
two chunks, hard-cut at 4096 (the double-newline and single-newline
split preferences find nothing to prefer).  A 4097-character text CAN
collapse to a single chunk when everything after the chosen split point
is newlines, which `lstrip` removes (see the counterexample). -/
theorem send_long_amended (text : List Char) :
    (text.length = 4096 → sendLongChunks text = [text]) ∧
    (text.length = 4097 → Char.ofNat 10 ∉ text →
      sendLongChunks text = [text.take 4096, text.drop 4096]) := by
  constructor
  · intro hlen
    unfold sendLongChunks
    rw [if_pos (by rw [hlen]; decide)]
  · intro hlen hn
    have hchar : ∀ k x, text.get? k = some x → x ≠ Char.ofNat 10 := by
      intro k x hget he
      subst he
      exact hn (List.get?_mem hget)
    have h2 : rfindIn text [Char.ofNat 10, Char.ofNat 10] TELEGRAM_MAX = none := by
      unfold rfindIn
      exact rfindAux_no_match [Char.ofNat 10, Char.ofNat 10] TELEGRAM_MAX
        (Char.ofNat 10) rfl text 0 (fun k x _ hget => hchar k x hget)
    have h1 : rfindIn text [Char.ofNat 10] TELEGRAM_MAX = none := by
      unfold rfindIn
      exact rfindAux_no_match [Char.ofNat 10] TELEGRAM_MAX
        (Char.ofNat 10) rfl text 0 (fun k x _ hget => hchar k x hget)
    have hcut : sendLongCut text = 4096 := by
      unfold sendLongCut
      rw [h2, h1]
      rfl
    have hne : text ≠ [] := by
      intro hh
      rw [hh] at hlen
      exact absurd hlen (by decide)
    obtain ⟨c, hc⟩ : ∃ c, text.drop 4096 = [c] :=
      List.length_eq_one.mp (by rw [List.length_drop, hlen])
    have hcne : ¬ (c = Char.ofNat 10) := by
      intro he
      subst he
      exact hn (List.drop_subset 4096 text (hc ▸ List.mem_singleton_self _))
    have hdw : (text.drop 4096).dropWhile (fun ch => ch = Char.ofNat 10)
        = text.drop 4096 := by
      rw [hc]
      simp [List.dropWhile, hcne]
    unfold sendLongChunks
    rw [if_neg (by rw [hlen]; decide)]
    rw [sendLongGo]
    rw [if_neg hne]
    rw [if_neg (by rw [hlen]; decide)]
    rw [hcut, hdw]
    rw [sendLongGo_small (text.drop 4096) (by rw [hc]; exact List.cons_ne_nil _ _)
      (by rw [List.length_drop, hlen]; decide) text.length (by rw [hlen]; decide)]

/-- Witness for C9 amended at 4096 `a`s (one chunk) and 4097 `b`s
(two chunks, hard cut). -/
theorem send_long_amended_witness :
    ((List.replicate 4096 'a').length = 4096 ∧
      sendLongChunks (List.replicate 4096 'a') = [List.replicate 4096 'a']) ∧
    ((List.replicate 4097 'b').length = 4097 ∧
      Char.ofNat 10 ∉ List.replicate 4097 'b' ∧
      sendLongChunks (List.replicate 4097 'b')
        = [(List.replicate 4097 'b').take 4096, (List.replicate 4097 'b').drop 4096]) :=
  ⟨⟨by rw [List.length_replicate],
    (send_long_amended (List.replicate 4096 'a')).1 (by rw [List.length_replicate])⟩,
   by rw [List.length_replicate],
   fun h => absurd (List.eq_of_mem_replicate h) (by decide),
   (send_long_amended (List.replicate 4097 'b')).2 (by rw [List.length_replicate])
     (fun h => absurd (List.eq_of_mem_replicate h) (by decide))⟩

/-! ## KB-enrichment synthesize stage — openclaw/wiring/kb_enrichment.py -/

/-- The vision-stage output fields `_synthesize` reads
(kb_enrichment.py lines 551-557).  Wiring models are structured maps;
their Python truthiness is non-emptiness and their comparison is
structural equality. -/
structure VisionData where
  vendor : String := ""
  product : String := ""
  part_number : String := ""
  component_type : String := ""
  ratings : List (String × String) := []
  terminals : List (String × String) := []
  wiring_diagram : List (String × String) := []
deriving DecidableEq, Repr

/-- The KB-candidate fields `_synthesize` reads (lines 565-608).  The
`wiring_model` arrives already normalized to a dict: the source's
string-JSON branch (lines 578-582) parses a string form and degrades to
`{}` on parse failure before any comparison, so the comparison logic
below only ever sees dicts. -/
structure KBMatch where
  atom_id : Option String := none
  vendor : String := ""
  product : String := ""
  part_number : String := ""
  wiring_model : List (String × String) := []
  manual_refs : List String := []
  keywords : List String := []
deriving DecidableEq, Repr

/-- The mutable locals of `_synthesize`'s merge loop (lines 560-608). -/
structure SynthState where
  existing_atom_id : Option String
  vendor : String
  product : String
  part_number : String
  wiring_diagram : List (String × String)
  conflict : Bool
  kb_manual_refs : List String
  kb_keywords : List String
deriving DecidableEq, Repr

/-- One iteration of `for kb_rec in kb_matches` (lines 565-608):
`existing_atom_id` is overwritten each pass; empty nameplate fields are
filled from the KB; the wiring model is taken from the KB only when
vision had none, and two non-empty, unequal wiring models set
`conflict` (the accumulated model is kept — no auto-merge); manual refs
and keywords are collected.  The ratings loop (lines 592-598) reads but
changes nothing (`pass`). -/
def synthStep (st : SynthState) (kb_rec : KBMatch) : SynthState :=
  { existing_atom_id := kb_rec.atom_id,
    vendor := if st.vendor = "" ∧ kb_rec.vendor ≠ "" then kb_rec.vendor else st.vendor,
    product := if st.product = "" ∧ kb_rec.product ≠ "" then kb_rec.product else st.product,
    part_number :=
      if st.part_number = "" ∧ kb_rec.part_number ≠ "" then kb_rec.part_number
      else st.part_number,
    wiring_diagram :=
      if kb_rec.wiring_model ≠ [] ∧ st.wiring_diagram = [] then kb_rec.wiring_model
      else st.wiring_diagram,
    conflict :=
      if kb_rec.wiring_model ≠ [] ∧ st.wiring_diagram ≠ [] ∧
          kb_rec.wiring_model ≠ st.wiring_diagram then true
      else st.conflict,
    kb_manual_refs :=
      if kb_rec.manual_refs ≠ [] then st.kb_manual_refs ++ kb_rec.manual_refs
      else st.kb_manual_refs,
    kb_keywords :=
      if kb_rec.keywords ≠ [] then st.kb_keywords ++ kb_rec.keywords
      else st.kb_keywords }

/-- The returned atom dict (lines 644-662); the purely presentational
`summary`/`content` strings and the timestamped provenance entry are
not modelled.  Python builds `keywords` through `set()`, whose order is
unspecified; deduplication order here is fixed but immaterial. -/
structure SynthAtom where
  existing_atom_id : Option String
  conflict : Bool
  atom_type : String
  vendor : String
  product : String
  part_number : String
  component_type : String
  title : String
  keywords : List String
  ratings : List (String × String)
  terminals : List (String × String)
  wiring_model : List (String × String)
  manual_refs : List String
  needs_review : Bool
deriving DecidableEq, Repr

/-- `_synthesize` (kb_enrichment.py lines 538-662): run the merge loop
from the vision data, clean the ratings, and assemble the canonical
atom; `needs_review` is set to the `conflict` flag. -/
def synthesize (vision : VisionData) (kb_matches : List KBMatch) : SynthAtom :=
  let st := kb_matches.foldl synthStep
    { existing_atom_id := none, vendor := vision.vendor, product := vision.product,
      part_number := vision.part_number, wiring_diagram := vision.wiring_diagram,
      conflict := false, kb_manual_refs := [], kb_keywords := [] }
  { existing_atom_id := st.existing_atom_id,
    conflict := st.conflict,
    atom_type := "spec",
    vendor := st.vendor, product := st.product, part_number := st.part_number,
    component_type := vision.component_type,
    title :=
      if (st.vendor ++ " " ++ st.product).trim ≠ "" then (st.vendor ++ " " ++ st.product).trim
      else (st.vendor ++ " " ++ st.part_number).trim,
    keywords := (([st.part_number, st.vendor, vision.component_type, st.product]
      ++ st.kb_keywords).filter (fun s => s ≠ "")).eraseDups,
    ratings := vision.ratings.filter (fun kv => kv.2 ≠ ""),
    terminals := vision.terminals,
    wiring_model := st.wiring_diagram,
    manual_refs := st.kb_manual_refs,
    needs_review := st.conflict }

theorem synthFold_conflict_all_empty :
    ∀ (kbs : List KBMatch) (st : SynthState), (∀ r ∈ kbs, r.wiring_model = []) →
      (kbs.foldl synthStep st).conflict = st.conflict := by
  intro kbs
  induction kbs with
  | nil => intro st _; rfl
  | cons r rest ih =>
    intro st hall
    rw [List.foldl_cons]
    rw [ih (synthStep st r) (fun r2 h2 => hall r2 (List.mem_cons_of_mem r h2))]
    show (if r.wiring_model ≠ [] ∧ st.wiring_diagram ≠ [] ∧
        r.wiring_model ≠ st.wiring_diagram then true else st.conflict) = st.conflict
    rw [if_neg (fun h => h.1 (hall r (List.mem_cons_self r rest)))]

theorem synthFold_wd_conflict :
    ∀ (kbs : List KBMatch) (st : SynthState), st.wiring_diagram ≠ [] →
      (kbs.foldl synthStep st).wiring_diagram = st.wiring_diagram ∧
      ((kbs.foldl synthStep st).conflict = true ↔ st.conflict = true ∨
        ∃ r ∈ kbs, r.wiring_model ≠ [] ∧ r.wiring_model ≠ st.wiring_diagram) := by
  intro kbs
  induction kbs with
  | nil => intro st _; exact ⟨rfl, by simp⟩
  | cons r rest ih =>
    intro st hwd
    rw [List.foldl_cons]
    have hwd2 : (synthStep st r).wiring_diagram = st.wiring_diagram := by
      show (if r.wiring_model ≠ [] ∧ st.wiring_diagram = [] then r.wiring_model
        else st.wiring_diagram) = st.wiring_diagram
      rw [if_neg (fun h => hwd h.2)]
    have hih := ih (synthStep st r) (by rw [hwd2]; exact hwd)
    refine ⟨by rw [hih.1, hwd2], ?_⟩
    rw [hih.2, hwd2]
    have hcf : (synthStep st r).conflict
        = if r.wiring_model ≠ [] ∧ st.wiring_diagram ≠ [] ∧
            r.wiring_model ≠ st.wiring_diagram then true else st.conflict := rfl
    rw [hcf, List.exists_mem_cons_iff]
    by_cases hc : r.wiring_model ≠ [] ∧ r.wiring_model ≠ st.wiring_diagram
    · rw [if_pos ⟨hc.1, hwd, hc.2⟩]
      constructor
      · intro _
        exact Or.inr (Or.inl hc)
      · intro _
        exact Or.inl rfl
    · rw [if_neg (fun h => hc ⟨h.1, h.2.2⟩)]
      constructor
      · intro h
        rcases h with h | h
        · exact Or.inl h
        · exact Or.inr (Or.inr h)
      · intro h
        rcases h with h | h | h
        · exact Or.inl h
        · exact absurd h hc
        · exact Or.inr h

/-- C7 counterexample: vision data (vendor SIEMENS, part 3RT1015) is
synthesized with a KB candidate of a different vendor (ABB) and a
different part number, whose wiring model equals the vision one.
Vendor and part-number exact match both fail, yet the produced atom has
`needs_review = false`: only a wiring-model conflict sets the flag. -/
theorem synthesize_needs_review_counterexample :
    (synthesize
        (VisionData.mk "SIEMENS" "" "3RT1015" "contactor" [] [] [("L1", "T1")])
        [KBMatch.mk (some "a1") "ABB" "AF09" "AF09-30-10" [("L1", "T1")] [] []]).needs_review
      = false
    ∧ (VisionData.mk "SIEMENS" "" "3RT1015" "contactor" [] [] [("L1", "T1")]).vendor
      ≠ (KBMatch.mk (some "a1") "ABB" "AF09" "AF09-30-10" [("L1", "T1")] [] []).vendor
    ∧ (VisionData.mk "SIEMENS" "" "3RT1015" "contactor" [] [] [("L1", "T1")]).part_number
      ≠ (KBMatch.mk (some "a1") "ABB" "AF09" "AF09-30-10" [("L1", "T1")] [] []).part_number := by
  refine ⟨?_, by decide, by decide⟩
  rfl

/-- C7 amended: `needs_review` is set exactly by wiring-model conflict,
not by vendor or part-number mismatches: when no KB candidate carries a
wiring model, the atom has `needs_review = false` whatever the
vendor/part-number relationship; and when vision has a wiring model,
`needs_review = true` precisely when some KB candidate carries a
non-empty wiring model different from it. -/
theorem synthesize_needs_review_amended :
    (∀ (vision : VisionData) (kbs : List KBMatch),
      (∀ r ∈ kbs, r.wiring_model = []) →
      (synthesize vision kbs).needs_review = false) ∧
    (∀ (vision : VisionData) (kbs : List KBMatch),
      vision.wiring_diagram ≠ [] →
      ((synthesize vision kbs).needs_review = true ↔
        ∃ r ∈ kbs, r.wiring_model ≠ [] ∧ r.wiring_model ≠ vision.wiring_diagram)) := by
  constructor
  · intro vision kbs hall
    show (kbs.foldl synthStep
      { existing_atom_id := none, vendor := vision.vendor, product := vision.product,
        part_number := vision.part_number, wiring_diagram := vision.wiring_diagram,
        conflict := false, kb_manual_refs := [], kb_keywords := [] }).conflict = false
    rw [synthFold_conflict_all_empty kbs _ hall]
  · intro vision kbs hwd
    have h := synthFold_wd_conflict kbs
      { existing_atom_id := none, vendor := vision.vendor, product := vision.product,
        part_number := vision.part_number, wiring_diagram := vision.wiring_diagram,
        conflict := false, kb_manual_refs := [], kb_keywords := [] } hwd
    have h2 := h.2
    simp only [Bool.false_eq_true, false_or] at h2
    exact h2

/-- Witness for C7 amended: no-wiring KB candidates leave
`needs_review = false` despite a vendor mismatch, and a conflicting
wiring model sets it. -/
theorem synthesize_needs_review_amended_witness :
    ((∀ r ∈ [KBMatch.mk (some "a1") "ABB" "" "" [] [] []], r.wiring_model = ([] : List (String × String))) ∧
      (synthesize (VisionData.mk "SIEMENS" "" "3RT1015" "" [] [] [])
        [KBMatch.mk (some "a1") "ABB" "" "" [] [] []]).needs_review = false) ∧
    ((VisionData.mk "SIEMENS" "" "3RT1015" "" [] [] [("L1", "T1")]).wiring_diagram ≠ [] ∧
      ((synthesize (VisionData.mk "SIEMENS" "" "3RT1015" "" [] [] [("L1", "T1")])
          [KBMatch.mk (some "a1") "ABB" "" "" [("L1", "T2")] [] []]).needs_review = true ↔
        ∃ r ∈ [KBMatch.mk (some "a1") "ABB" "" "" [("L1", "T2")] [] []],
          r.wiring_model ≠ [] ∧
          r.wiring_model
            ≠ (VisionData.mk "SIEMENS" "" "3RT1015" "" [] [] [("L1", "T1")]).wiring_diagram)) :=
  ⟨⟨by decide,
    synthesize_needs_review_amended.1
      (VisionData.mk "SIEMENS" "" "3RT1015" "" [] [] [])
      [KBMatch.mk (some "a1") "ABB" "" "" [] [] []] (by decide)⟩,
   by decide,
   synthesize_needs_review_amended.2
     (VisionData.mk "SIEMENS" "" "3RT1015" "" [] [] [("L1", "T1")])
     [KBMatch.mk (some "a1") "ABB" "" "" [("L1", "T2")] [] []] (by decide)⟩
